import Mathlib

/-!
# Verification of the proofchecker core (parser + prover driver)

This file gives a shallow embedding, in Lean 4, of the Python sources
`src/python/prover.py` (the AST-to-SMT translator `term_to_z3` /
`formula_to_z3` and the verification driver `prove`) and
`src/python/parser.py` (the lexer and the recursive-descent statement and
formula grammar), and proves the specification claims C1..C10 about them.

Modelling conventions:

* Python JSON dicts that stand for AST nodes become the inductive `Ast`.
  A dict whose `type` tag is unrecognised is `Ast.unknownType tag`; a dict
  with no `type` key is `Ast.missingType`; a non-dict value (for example
  `None`) is `Ast.notObj pyType` carrying the Python type name.  A missing
  required field of a node is an `Option` that is `none` (or an empty list
  where the source supplies a `[]` default).
* Python exceptions `TermError` / `FormulaError` become the `Except`
  monad with error type `ProofErr`; the `try/except` of `prove` becomes a
  `match` on the `Except` value.
* The external Z3 solver is a black box.  Its expression language is the
  inductive `Z3Expr` (one constructor per Z3 API call the source makes),
  and a solver session `Solver(); s.add(e1); ...; s.add(en); s.check()`
  becomes one call `oracle.check [e1, ..., en]` of an abstract oracle,
  which also renders model values (`m.eval(v, model_completion=True)`)
  as text via `oracle.modelEval`.
* A mutable Python dict environment becomes an association list threaded
  through the translation; `env.copy()` at a call site is modelled by
  discarding the environment the call returns.
-/

/-- The three answers of the solver `check-sat` call. -/
inductive CheckResult where
  | sat
  | unsat
  | unknown
  deriving DecidableEq, Repr

/-- Solver-side expressions: one constructor per Z3 API construction used
by `prover.py` (`RealVal`, `Int`, `Real`, arithmetic and comparison
operators, `If`, `And`, `Or`, `Not`, `Implies`, `ForAll`, `Exists`, and
the Python booleans returned for empty conjunction / disjunction).
`intLit` stands for a bare Python integer literal coerced by Z3 (the `0`
of `x >= 0` inside the absolute-value lowering). -/
inductive Z3Expr where
  | realVal (s : String)
  | intConst (name : String)
  | realConst (name : String)
  | intLit (n : Int)
  | addE (a b : Z3Expr)
  | subE (a b : Z3Expr)
  | mulE (a b : Z3Expr)
  | divE (a b : Z3Expr)
  | negE (a : Z3Expr)
  | powE (a b : Z3Expr)
  | iteE (c a b : Z3Expr)
  | ltE (a b : Z3Expr)
  | leE (a b : Z3Expr)
  | eqE (a b : Z3Expr)
  | neE (a b : Z3Expr)
  | gtE (a b : Z3Expr)
  | geE (a b : Z3Expr)
  | andE (args : List Z3Expr)
  | orE (args : List Z3Expr)
  | notE (a : Z3Expr)
  | impliesE (a b : Z3Expr)
  | forallE (vars : List Z3Expr) (body : Z3Expr)
  | existsE (vars : List Z3Expr) (body : Z3Expr)
  | trueE
  | falseE
  deriving Repr

/-- The variable environment `env`: a Python dict from names to solver
constants, modelled as an association list in insertion order (Python
dicts preserve insertion order, and `env.items()` is iterated in that
order when a model is printed). -/
abbrev Env := List (String × Z3Expr)

/-- Dict lookup (`name in env` / `env[name]`). -/
def envFind : Env → String → Option Z3Expr
  | [], _ => none
  | (k, v) :: rest, n => if k = n then some v else envFind rest n

/-- Dict write `env[name] = v`: overwrite in place, or append a new key. -/
def envSet : Env → String → Z3Expr → Env
  | [], n, v => [(n, v)]
  | (k, w) :: rest, n, v =>
      if k = n then (n, v) :: rest else (k, w) :: envSet rest n v

/-- The `var_types` dict: variable name to `"Int"` or `"Real"`. -/
abbrev VarTypes := List (String × String)

/-- Dict `var_types.get(name)`. -/
def vtGet : VarTypes → String → Option String
  | [], _ => none
  | (k, v) :: rest, n => if k = n then some v else vtGet rest n

/-- The solver constant created for a variable name: `Int(name)` when
`var_types.get(name) == 'Int'`, else `Real(name)`.  The source inlines
this if-else at its three creation sites (driver initialisation, the
`var` term case, and the quantifier cases); we name it once. -/
def mkVar (var_types : VarTypes) (name : String) : Z3Expr :=
  if vtGet var_types name = some "Int" then .intConst name else .realConst name

/-- The AST value space: JSON objects as produced by `parser.py` and
consumed by `prover.py`.  Terms and formulas share one dict space in the
source (the parser can and does return term nodes in formula positions),
so they share one inductive here. -/
inductive Ast where
  | num (value : Option String)
  | var (name : Option String)
  | bin (op : Option String) (lhs rhs : Option Ast)
  | absA (arg : Option Ast)
  | negA (arg : Option Ast)
  | powA (base exp : Option Ast)
  | sqrtA (arg : Option Ast)
  | minA (args : List Ast)
  | maxA (args : List Ast)
  | rel (op : Option String) (lhs rhs : Option Ast)
  | andF (args : List Ast)
  | orF (args : List Ast)
  | notF (arg : Option Ast)
  | impliesF (lhs rhs : Option Ast)
  | forallF (vars : List String) (body : Option Ast)
  | existsF (vars : List String) (body : Option Ast)
  | unknownType (ty : String)
  | missingType
  | notObj (pyType : String)
  deriving Repr

/-- The `type` tag of a node as the Python dict carries it (used in the
`Unknown term type: ...` / `Unknown formula type: ...` messages). -/
def Ast.tyName : Ast → String
  | .num _ => "num"
  | .var _ => "var"
  | .bin _ _ _ => "bin"
  | .absA _ => "abs"
  | .negA _ => "neg"
  | .powA _ _ => "pow"
  | .sqrtA _ => "sqrt"
  | .minA _ => "min"
  | .maxA _ => "max"
  | .rel _ _ _ => "rel"
  | .andF _ => "and"
  | .orF _ => "or"
  | .notF _ => "not"
  | .impliesF _ _ => "implies"
  | .forallF _ _ => "forall"
  | .existsF _ _ => "exists"
  | .unknownType ty => ty
  | .missingType => ""
  | .notObj _ => ""

/-- The exception classes of `prover.py` (`TermError`, `FormulaError`,
both subclasses of `ProofError`). -/
inductive ProofErr where
  | termError (msg : String)
  | formulaError (msg : String)
  deriving DecidableEq, Repr

/-- The message carried by an exception (`str(e)`). -/
def ProofErr.msg : ProofErr → String
  | .termError m => m
  | .formulaError m => m

mutual

/-- `term_to_z3(t, env, var_types)` of `prover.py`: lower a term node to a
solver expression.  The mutable `env` is threaded: the result pairs the
expression with the updated environment.  (The source messages quote the
missing field names; the quotes are dropped here.) -/
def term_to_z3 (t : Ast) (env : Env) (var_types : VarTypes) :
    Except ProofErr (Z3Expr × Env) :=
  match t with
  | .notObj py => .error (.termError s!"Term must be an object, got: {py}")
  | .missingType => .error (.termError "Term missing type field")
  | .num value =>
      match value with
      | none => .error (.termError "Numeric term missing value field")
      | some v => .ok (.realVal v, env)
  | .var name =>
      match name with
      | none => .error (.termError "Variable term missing name field")
      | some n =>
          match envFind env n with
          | some e => .ok (e, env)
          | none => .ok (mkVar var_types n, envSet env n (mkVar var_types n))
  | .bin op lhs rhs =>
      match op with
      | none => .error (.termError "Binary term missing op field")
      | some o =>
          match lhs, rhs with
          | some l, some r => do
              let (a, env) ← term_to_z3 l env var_types
              let (b, env) ← term_to_z3 r env var_types
              if o = "+" then .ok (.addE a b, env)
              else if o = "-" then .ok (.subE a b, env)
              else if o = "*" then .ok (.mulE a b, env)
              else if o = "/" then .ok (.divE a b, env)
              else .error (.termError s!"Unknown binary operator: {o}")
          | _, _ => .error (.termError "Binary term missing lhs or rhs field")
  | .absA arg =>
      match arg with
      | none => .error (.termError "Abs term missing arg field")
      | some a => do
          let (x, env) ← term_to_z3 a env var_types
          .ok (.iteE (.geE x (.intLit 0)) x (.negE x), env)
  | .negA arg =>
      match arg with
      | none => .error (.termError "Neg term missing arg field")
      | some a => do
          let (x, env) ← term_to_z3 a env var_types
          .ok (.negE x, env)
  | .powA base exp =>
      match base, exp with
      | some b, some e => do
          let (bz, env) ← term_to_z3 b env var_types
          let (ez, env) ← term_to_z3 e env var_types
          .ok (.powE bz ez, env)
      | _, _ => .error (.termError "Pow term missing base or exp field")
  | .sqrtA arg =>
      match arg with
      | none => .error (.termError "Sqrt term missing arg field")
      | some a => do
          let (x, env) ← term_to_z3 a env var_types
          .ok (.powE x (.realVal "0.5"), env)
  | .minA args =>
      match args with
      | a0 :: a1 :: rest => do
          let (r, env) ← term_to_z3 a0 env var_types
          minmax_fold true (a1 :: rest) r env var_types
      | _ => .error (.termError "Min requires at least 2 arguments")
  | .maxA args =>
      match args with
      | a0 :: a1 :: rest => do
          let (r, env) ← term_to_z3 a0 env var_types
          minmax_fold false (a1 :: rest) r env var_types
      | _ => .error (.termError "Max requires at least 2 arguments")
  | t => .error (.termError s!"Unknown term type: {t.tyName}")

/-- The left fold of the `min` / `max` cases: `result = If(result <=
other, result, other)` (resp. `>=`) over the remaining arguments. -/
def minmax_fold (isMin : Bool) (args : List Ast) (result : Z3Expr)
    (env : Env) (var_types : VarTypes) : Except ProofErr (Z3Expr × Env) :=
  match args with
  | [] => .ok (result, env)
  | a :: rest => do
      let (other, env) ← term_to_z3 a env var_types
      let result :=
        if isMin then Z3Expr.iteE (.leE result other) result other
        else Z3Expr.iteE (.geE result other) result other
      minmax_fold isMin rest result env var_types

end

mutual

/-- `formula_to_z3(f, env, var_types)` of `prover.py`: lower a formula
node to a solver expression, threading the mutable `env`. -/
def formula_to_z3 (f : Ast) (env : Env) (var_types : VarTypes) :
    Except ProofErr (Z3Expr × Env) :=
  match f with
  | .notObj py => .error (.formulaError s!"Formula must be an object, got: {py}")
  | .missingType => .error (.formulaError "Formula missing type field")
  | .rel op lhs rhs =>
      match op with
      | none => .error (.formulaError "Relational formula missing op field")
      | some o =>
          match lhs, rhs with
          | some l, some r => do
              let (a, env) ← term_to_z3 l env var_types
              let (b, env) ← term_to_z3 r env var_types
              if o = "<" then .ok (.ltE a b, env)
              else if o = "<=" then .ok (.leE a b, env)
              else if o = "=" then .ok (.eqE a b, env)
              else if o = "!=" then .ok (.neE a b, env)
              else if o = ">" then .ok (.gtE a b, env)
              else if o = ">=" then .ok (.geE a b, env)
              else .error (.formulaError s!"Unknown relational operator: {o}")
          | _, _ => .error (.formulaError "Relational formula missing lhs or rhs field")
  | .andF args =>
      match args with
      | [] => .ok (.trueE, env)
      | _ => do
          let (zargs, env) ← formula_list args env var_types
          .ok (.andE zargs, env)
  | .orF args =>
      match args with
      | [] => .ok (.falseE, env)
      | _ => do
          let (zargs, env) ← formula_list args env var_types
          .ok (.orE zargs, env)
  | .notF arg =>
      match arg with
      | none => .error (.formulaError "Not formula missing arg field")
      | some a => do
          let (inner, env) ← formula_to_z3 a env var_types
          .ok (.notE inner, env)
  | .impliesF lhs rhs =>
      match lhs, rhs with
      | some l, some r => do
          let (a, env) ← formula_to_z3 l env var_types
          let (b, env) ← formula_to_z3 r env var_types
          .ok (.impliesE a b, env)
      | _, _ => .error (.formulaError "Implies formula missing lhs or rhs field")
  | .forallF vars body =>
      match vars with
      | [] => .error (.formulaError "Forall formula missing vars field")
      | _ =>
          match body with
          | none => .error (.formulaError "Forall formula missing body field")
          | some b => do
              let quant_vars := vars.map (mkVar var_types)
              let env := vars.foldl (fun e n => envSet e n (mkVar var_types n)) env
              let (bz, env) ← formula_to_z3 b env var_types
              .ok (.forallE quant_vars bz, env)
  | .existsF vars body =>
      match vars with
      | [] => .error (.formulaError "Exists formula missing vars field")
      | _ =>
          match body with
          | none => .error (.formulaError "Exists formula missing body field")
          | some b => do
              let quant_vars := vars.map (mkVar var_types)
              let env := vars.foldl (fun e n => envSet e n (mkVar var_types n)) env
              let (bz, env) ← formula_to_z3 b env var_types
              .ok (.existsE quant_vars bz, env)
  | f => .error (.formulaError s!"Unknown formula type: {f.tyName}")

/-- The list comprehension `[formula_to_z3(arg, env, var_types) for arg in
args]` of the `and` / `or` cases, threading `env` left to right. -/
def formula_list (args : List Ast) (env : Env) (var_types : VarTypes) :
    Except ProofErr (List Z3Expr × Env) :=
  match args with
  | [] => .ok ([], env)
  | a :: rest => do
      let (z, env) ← formula_to_z3 a env var_types
      let (zs, env) ← formula_list rest env var_types
      .ok (z :: zs, env)

end

/-- The abstract solver oracle.  `check q` is the answer of a fresh
`Solver()` session to which the expressions of `q` were added in order;
`modelEval q v` is the text of `m.eval(v, model_completion=True)` for the
model `m` the solver returned on that (satisfiable) query. -/
structure Z3Oracle where
  check : List Z3Expr → CheckResult
  modelEval : List Z3Expr → Z3Expr → String

/-- Per-case entry of a cases block report (the dict
`{"case": idx+1, "ok": True}`; the dict key `case` is a Lean keyword, so
the field is `caseIdx`). -/
structure CaseResult where
  caseIdx : Nat
  ok : Bool
  deriving Repr

/-- Per-step entry of the `step_results` array.  Absent dict keys are
`none`. -/
structure StepResult where
  step : Nat
  type : Option String := none
  ok : Bool
  status : Option String := none
  model : Option (List (String × String)) := none
  message : Option String := none
  error : Option String := none
  case_results : Option (List CaseResult) := none
  deriving Repr

/-- The verdict record returned by `prove`.  Absent dict keys are
`none`. -/
structure ProveResult where
  ok : Bool
  status : String
  model : Option (List (String × String)) := none
  message : Option String := none
  error : Option String := none
  step_results : Option (List StepResult) := none
  deriving Repr

/-- Insertion step of sorting the environment items by variable name
(Python `sorted(env.items())`; keys are unique, so key order decides). -/
def insert_by_name (p : String × Z3Expr) : Env → Env
  | [] => [p]
  | q :: rest => if p.1 ≤ q.1 then p :: q :: rest else q :: insert_by_name p rest

/-- `sorted(env.items())`. -/
def sort_by_name (env : Env) : Env := env.foldr insert_by_name []

/-- `format_counterexample(model, env)` of `prover.py`, with the model
rendered through the oracle for the satisfiable query `q`. -/
def format_counterexample (oracle : Z3Oracle) (q : List Z3Expr) (env : Env) :
    String :=
  let lines := (sort_by_name env).map (fun p =>
    let n := p.1
    let v := oracle.modelEval q p.2
    s!"  {n} = {v}")
  String.intercalate "\n" ("Counterexample found:" :: lines)

/-- One sub-step of a case (`{"formula": F}`; `none` for an absent or
`None` formula, which the `if cs_formula:` truthiness test skips). -/
structure CaseStep where
  formula : Option Ast
  deriving Repr

/-- One case of a cases block.  `condition` is `case.get("condition")`,
with `Ast.notObj "NoneType"` standing for an absent key; `steps` is
`case.get("steps", [])`. -/
structure Case where
  condition : Ast
  steps : List CaseStep
  deriving Repr

/-- One element of the driver `steps` input: a dict with optional keys
`type` (`"cases"` selects the cases handling), `formula`, `cases`. -/
structure Step where
  type : Option String := none
  formula : Option Ast := none
  cases : List Case := []
  deriving Repr

/-- `formula_to_z3(f, env.copy(), var_types)`: translate against a copy
of the environment, discarding the updated copy. -/
def f2z_copy (f : Ast) (env : Env) (var_types : VarTypes) :
    Except ProofErr Z3Expr :=
  (formula_to_z3 f env var_types).map Prod.fst

/-- The loop `for a in A: s.add(formula_to_z3(a, env.copy(), var_types))`:
each assumption is translated against its own copy of the environment. -/
def add_all_copy : List Ast → Env → VarTypes → Except ProofErr (List Z3Expr)
  | [], _, _ => .ok []
  | a :: rest, env, var_types => do
      let z ← f2z_copy a env var_types
      let zs ← add_all_copy rest env var_types
      .ok (z :: zs)

/-- The loop `for a in A: s.add(formula_to_z3(a, env, var_types))` of the
final claim check: the shared environment is threaded through. -/
def add_all_shared : List Ast → Env → VarTypes →
    Except ProofErr (List Z3Expr × Env)
  | [], env, _ => .ok ([], env)
  | a :: rest, env, var_types => do
      let (z, env) ← formula_to_z3 a env var_types
      let (zs, env) ← add_all_shared rest env var_types
      .ok (z :: zs, env)

/-- The inner loop over one case of a cases block: each sub-step with a
(truthy) formula is checked under the accumulated `case_assumptions`,
and appended to them when the check is `unsat`.  The accumulated list is
local to the case and discarded by the caller. -/
def run_case_steps (oracle : Z3Oracle) (var_types : VarTypes) (env : Env) :
    List CaseStep → List Ast → Except ProofErr (List Ast)
  | [], case_assumptions => .ok case_assumptions
  | cs :: rest, case_assumptions =>
      match cs.formula with
      | none => run_case_steps oracle var_types env rest case_assumptions
      | some f => do
          let azs ← add_all_copy case_assumptions env var_types
          let fz ← f2z_copy f env var_types
          let q := azs ++ [Z3Expr.notE fz]
          let ca := if oracle.check q = .unsat
            then case_assumptions ++ [f] else case_assumptions
          run_case_steps oracle var_types env rest ca

/-- The loop over the cases of a cases block: collects the conditions
(for the exhaustiveness check) and the per-case results, which the
source records as `{"case": idx+1, "ok": True}` unconditionally. -/
def run_cases (oracle : Z3Oracle) (var_types : VarTypes) (env : Env)
    (current_assumptions : List Ast) :
    List Case → Nat → Except ProofErr (List Ast × List CaseResult)
  | [], _ => .ok ([], [])
  | c :: rest, case_idx => do
      let case_assumptions := current_assumptions ++ [c.condition]
      let _ ← run_case_steps oracle var_types env c.steps case_assumptions
      let (conds, crs) ← run_cases oracle var_types env current_assumptions
        rest (case_idx + 1)
      .ok (c.condition :: conds, { caseIdx := case_idx + 1, ok := true } :: crs)

/-- The driver loop over `steps` (`for i, step in enumerate(steps)` of
`prove`): `current` is the live assumption list, `i` the 0-based index,
`acc` the accumulated `step_results`.  The Python local `all_cases_ok`
is set on a non-exhaustive block but never read afterwards, so it has no
counterpart here. -/
def run_steps (oracle : Z3Oracle) (var_types : VarTypes) (env : Env) :
    List Step → List Ast → Nat → List StepResult →
    Except ProofErr (List StepResult × List Ast)
  | [], current, _, acc => .ok (acc, current)
  | step :: rest, current, i, acc =>
      if step.type = some "cases" then do
        let (conditions, case_results) ← run_cases oracle var_types env
          current step.cases 0
        match conditions with
        | [] => run_steps oracle var_types env rest current (i + 1) acc
        | _ => do
            let azs ← add_all_copy current env var_types
            let condz ← conditions.mapM (fun c => f2z_copy c env var_types)
            let q := azs ++ [Z3Expr.notE (.orE condz)]
            let entry : StepResult :=
              if oracle.check q = .unsat then
                { step := i + 1, type := some "cases", ok := true,
                  status := some "proven", case_results := some case_results }
              else
                { step := i + 1, type := some "cases", ok := false,
                  status := some "non-exhaustive",
                  message := some "Cases may not cover all possibilities" }
            run_steps oracle var_types env rest current (i + 1) (acc ++ [entry])
      else
        match step.formula with
        | none =>
            let entry : StepResult :=
              { step := i + 1, ok := false, error := some "Step missing formula" }
            run_steps oracle var_types env rest current (i + 1) (acc ++ [entry])
        | some f => do
            let azs ← add_all_copy current env var_types
            let fz ← f2z_copy f env var_types
            let q := azs ++ [Z3Expr.notE fz]
            match oracle.check q with
            | .unsat =>
                let entry : StepResult :=
                  { step := i + 1, ok := true, status := some "proven" }
                run_steps oracle var_types env rest (current ++ [f]) (i + 1)
                  (acc ++ [entry])
            | .sat =>
                let model_out := env.map (fun p => (p.1, oracle.modelEval q p.2))
                let entry : StepResult :=
                  { step := i + 1, ok := false, status := some "disproven",
                    model := some model_out }
                run_steps oracle var_types env rest current (i + 1) (acc ++ [entry])
            | .unknown =>
                let entry : StepResult :=
                  { step := i + 1, ok := false, status := some "unknown" }
                run_steps oracle var_types env rest current (i + 1) (acc ++ [entry])

/-- The environment initialisation loop of `prove`: one solver constant
per declared variable. -/
def initEnv (declared_vars : List String) (var_types : VarTypes) : Env :=
  declared_vars.foldl (fun e name => envSet e name (mkVar var_types name)) []

/-- Body of the `try:` block of `prove(assumptions, claim, declared_vars,
var_types, steps)`: initialise the environment from the declared
variables, run the step loop, then decide the final claim on the query
`current_assumptions` followed by the negated claim. -/
def prove_core (oracle : Z3Oracle) (assumptions : List Ast) (claim : Ast)
    (declared_vars : List String) (var_types : VarTypes)
    (steps : List Step) : Except ProofErr ProveResult := do
  let env : Env := initEnv declared_vars var_types
  let (step_results, current_assumptions) ←
    run_steps oracle var_types env steps assumptions 0 []
  let (azs, env) ← add_all_shared current_assumptions env var_types
  let (claim_z3, env) ← formula_to_z3 claim env var_types
  let q := azs ++ [Z3Expr.notE claim_z3]
  match oracle.check q with
  | .unsat =>
      .ok { ok := true, status := "proven",
            step_results := if step_results.isEmpty then none else some step_results }
  | .sat =>
      let model_out := env.map (fun p => (p.1, oracle.modelEval q p.2))
      .ok { ok := false, status := "disproven", model := some model_out,
            message := some (format_counterexample oracle q env),
            step_results := if step_results.isEmpty then none else some step_results }
  | .unknown =>
      .ok { ok := false, status := "unknown",
            message := some "Z3 could not determine satisfiability (timeout or incomplete theory)",
            step_results := if step_results.isEmpty then none else some step_results }

/-- `prove` of `prover.py`: the `try/except` wrapper.  Every exception the
embedded body can raise is a `TermError` or `FormulaError`, handled by
returning an error record; the second, generic `except Exception`
handler of the source (message prefix `Internal error:`) guards Python
failure modes outside this value space and has no reachable counterpart
here. -/
def prove (oracle : Z3Oracle) (assumptions : List Ast) (claim : Ast)
    (declared_vars : List String) (var_types : VarTypes)
    (steps : List Step) : ProveResult :=
  match prove_core oracle assumptions claim declared_vars var_types steps with
  | .ok r => r
  | .error e => { ok := false, status := "error", error := some e.msg }

/-! ## Lexer (`parser.py`, class `Lexer`)

The source matches an ordered alternation of regular expressions at the
current position (each pattern itself greedy).  The scanner below tries
the same patterns in the same order.  Tokens carry the line/column at
which they start; per the source, `col` is advanced by the token length
after every token, including after a newline resets it to 1 (so the
first column of a line is reported as 2 by the original code — the
quirk is reproduced). -/

structure Tok where
  type : String
  value : String
  line : Nat
  col : Nat
  deriving DecidableEq, Repr

/-- `KEYWORDS` of `parser.py` (canonical keywords plus aliases). -/
def keywordTable : List String :=
  ["assume", "prove", "let", "have", "assert",
   "and", "or", "not", "implies",
   "forall", "exists",
   "true", "false",
   "theorem", "apply", "Int", "Real",
   "import", "cases", "case",
   "suppose", "given", "assuming", "if",
   "show", "therefore", "thus", "hence", "conclude", "qed",
   "then", "so", "know", "note", "observe", "since", "get",
   "where", "define", "set",
   "when", "whenever",
   "use", "using", "by",
   "lemma",
   "all", "every", "each",
   "some", "any",
   "but",
   "iff",
   "in"]

/-- `KEYWORD_ALIASES`: lower-cased alias to canonical token type. -/
def aliasTable : List (String × String) :=
  [("suppose", "ASSUME"), ("given", "ASSUME"), ("assuming", "ASSUME"), ("if", "ASSUME"),
   ("show", "PROVE"), ("therefore", "PROVE"), ("thus", "PROVE"),
   ("hence", "PROVE"), ("conclude", "PROVE"), ("qed", "PROVE"),
   ("then", "HAVE"), ("so", "HAVE"), ("know", "HAVE"),
   ("note", "HAVE"), ("observe", "HAVE"), ("since", "HAVE"), ("get", "HAVE"),
   ("where", "LET"), ("define", "LET"), ("set", "LET"),
   ("when", "CASE"), ("whenever", "CASE"),
   ("use", "APPLY"), ("using", "APPLY"), ("by", "APPLY"),
   ("lemma", "THEOREM"),
   ("all", "FORALL"), ("every", "FORALL"), ("each", "FORALL"),
   ("some", "EXISTS"), ("any", "EXISTS"),
   ("but", "AND"),
   ("iff", "IMPLIES")]

/-- `SET_ALIASES`: set-name spelling to canonical set atom. -/
def setAliasTable : List (String × String) :=
  [("R", "R"), ("Reals", "R"), ("reals", "R"),
   ("Z", "Z"), ("Integers", "Z"), ("integers", "Z"), ("Int", "Z"),
   ("N", "N"), ("Naturals", "N"), ("naturals", "N"), ("Nat", "N"),
   ("Q", "Q"), ("Rationals", "Q"), ("rationals", "Q")]

/-- `FUNCTIONS`. -/
def functionTable : List String := ["abs", "sqrt", "min", "max"]

/-- Generic association-list lookup used for the alias tables. -/
def tblGet : List (String × String) → String → Option String
  | [], _ => none
  | (k, v) :: rest, n => if k = n then some v else tblGet rest n

/-- ASCII lower-casing of one character (`str.lower()`; identifiers
matched by the lexer are ASCII, so the ASCII case suffices). -/
def lowerChar (c : Char) : Char :=
  if 'A' ≤ c ∧ c ≤ 'Z' then Char.ofNat (c.toNat + 32) else c

/-- ASCII upper-casing of one character (`str.upper()`). -/
def upperChar (c : Char) : Char :=
  if 'a' ≤ c ∧ c ≤ 'z' then Char.ofNat (c.toNat - 32) else c

/-- `token_value.lower()`. -/
def strLower (s : String) : String := String.mk (s.toList.map lowerChar)

/-- `token_value.upper()`. -/
def strUpper (s : String) : String := String.mk (s.toList.map upperChar)

/-- Classify a matched identifier exactly as the `IDENT` branch of
`Lexer.tokenize` does: canonical keyword or alias (case-insensitive),
`in`, function name, set atom (both case-sensitive), else plain
identifier. -/
def classifyIdent (v : String) : String × String :=
  let lower := strLower v
  if v ∈ keywordTable ∨ lower ∈ keywordTable then
    match tblGet aliasTable lower with
    | some canon => (canon, v)
    | none => if lower = "in" then ("IN", v) else (strUpper v, v)
  else if v ∈ functionTable then ("FUNC", v)
  else
    match tblGet setAliasTable v with
    | some canon => ("SET", canon)
    | none => ("IDENT", v)

/-- One ordered-alternation match at the head of `cs`: the token pattern
name, the matched characters, and the rest.  `none` when no pattern
matches (the lexical-error case). -/
def scanOne (cs : List Char) : Option (String × List Char × List Char) :=
  match cs with
  | [] => none
  | c :: rest =>
    if c = ' ' ∨ c = '\t' then
      let ws := (c :: rest).takeWhile (fun d => d = ' ' ∨ d = '\t')
      some ("WHITESPACE", ws, (c :: rest).drop ws.length)
    else if c = '\n' then some ("NEWLINE", [c], rest)
    else if c = '#' then
      let body := rest.takeWhile (fun d => d ≠ '\n')
      some ("COMMENT", c :: body, rest.drop body.length)
    else if c = '"' then
      -- STRING needs the closing quote; otherwise the pattern fails and,
      -- since no later pattern matches a quote, the lexer errors out.
      let body := rest.takeWhile (fun d => d ≠ '"')
      match rest.drop body.length with
      | '"' :: rest2 => some ("STRING", c :: body ++ ['"'], rest2)
      | _ => none
    else if c.isDigit then
      let ds := (c :: rest).takeWhile Char.isDigit
      let afterDs := (c :: rest).drop ds.length
      match afterDs with
      | '.' :: rest2 =>
          let frac := rest2.takeWhile Char.isDigit
          some ("NUMBER", ds ++ '.' :: frac, rest2.drop frac.length)
      | _ => some ("NUMBER", ds, afterDs)
    else if c.isAlpha ∨ c = '_' then
      let body := rest.takeWhile (fun d => d.isAlphanum ∨ d = '_')
      some ("IDENT", c :: body, rest.drop body.length)
    else if c = '<' then
      match rest with
      | '=' :: rest2 => some ("LE", ['<', '='], rest2)
      | _ => some ("LT", [c], rest)
    else if c = '>' then
      match rest with
      | '=' :: rest2 => some ("GE", ['>', '='], rest2)
      | _ => some ("GT", [c], rest)
    else if c = '!' then
      match rest with
      | '=' :: rest2 => some ("NE", ['!', '='], rest2)
      | _ => none
    else if c = '=' then
      match rest with
      | '>' :: rest2 => some ("IMPLIES_OP", ['=', '>'], rest2)
      | _ => some ("EQ", [c], rest)
    else if c = '+' then some ("PLUS", [c], rest)
    else if c = '-' then some ("MINUS", [c], rest)
    else if c = '*' then some ("STAR", [c], rest)
    else if c = '/' then some ("SLASH", [c], rest)
    else if c = '^' then some ("CARET", [c], rest)
    else if c = '(' then some ("LPAREN", [c], rest)
    else if c = ')' then some ("RPAREN", [c], rest)
    else if c = ',' then some ("COMMA", [c], rest)
    else if c = ':' then some ("COLON", [c], rest)
    else if c = '.' then some ("DOT", [c], rest)
    else if c = '|' then some ("PIPE", [c], rest)
    else none

/-- The scanning loop of `Lexer.tokenize`, with fuel (each successful
match consumes at least one character, so `length + 1` fuel always
suffices). -/
def tokenizeLoop (fuel : Nat) (cs : List Char) (line col : Nat)
    (acc : List Tok) : Except String (List Tok)  :=
  match fuel with
  | 0 => .error "tokenize: out of fuel"
  | fuel + 1 =>
    match cs with
    | [] => .ok (acc ++ [{ type := "EOF", value := "", line := line, col := col }])
    | c :: _ =>
      match scanOne cs with
      | none =>
          .error s!"line {line}, col {col}: Unexpected character: {c}"
      | some (ty, chars, rest) =>
          let v := String.mk chars
          if ty = "NEWLINE" then
            let tk : Tok := { type := "NEWLINE", value := "\n", line := line, col := col }
            -- the source resets col to 1 and then still adds len("\n")
            tokenizeLoop fuel rest (line + 1) 2 (acc ++ [tk])
          else if ty = "WHITESPACE" ∨ ty = "COMMENT" then
            tokenizeLoop fuel rest line (col + chars.length) acc
          else if ty = "IDENT" then
            let (canonTy, canonV) := classifyIdent v
            let tk : Tok := { type := canonTy, value := canonV, line := line, col := col }
            tokenizeLoop fuel rest line (col + chars.length) (acc ++ [tk])
          else
            let tk : Tok := { type := ty, value := v, line := line, col := col }
            tokenizeLoop fuel rest line (col + chars.length) (acc ++ [tk])

/-- `Lexer(source).tokenize()`. -/
def tokenize (source : String) : Except String (List Tok) :=
  tokenizeLoop (source.length + 1) source.toList 1 1 []

/-! ## Parser (`parser.py`, class `Parser`)

The source keeps a token array and a position index; we keep the
remaining token suffix (`advance` drops the head).  The Python
`tokens[-1]` fallback for reads past the end can only be the `EOF`
sentinel, which `eofTok` stands for.  A raised `ParseError` carries the
parser state at the raise point (Python state mutations survive an
exception), so the error type pairs the formatted message with the
state.  Recursion is by explicit fuel; every run in this file uses
enough fuel that the out-of-fuel branch is never taken. -/

/-- The sentinel read when no tokens remain. -/
def eofTok : Tok := { type := "EOF", value := "", line := 0, col := 0 }

/-- A named theorem: `{"assumptions": [...], "conclusion": F}`. -/
structure TheoremDef where
  assumptions : List Ast
  conclusion : Ast
  deriving Repr

/-- Theorem-table lookup (`name in self.theorems` / access). -/
def thGet : List (String × TheoremDef) → String → Option TheoremDef
  | [], _ => none
  | (k, v) :: rest, n => if k = n then some v else thGet rest n

/-- Theorem-table write. -/
def thSet : List (String × TheoremDef) → String → TheoremDef →
    List (String × TheoremDef)
  | [], n, v => [(n, v)]
  | (k, w) :: rest, n, v =>
      if k = n then (n, v) :: rest else (k, w) :: thSet rest n v

/-- `var_types` dict write. -/
def vtSet : VarTypes → String → String → VarTypes
  | [], n, v => [(n, v)]
  | (k, w) :: rest, n, v =>
      if k = n then (n, v) :: rest else (k, w) :: vtSet rest n v

/-- The mutable fields of the `Parser` object.  `vars` models the Python
set `self.variables` as the list of additions (faithful up to membership,
which is all the source ever asks of it; `list(self.variables)` at the
end has unspecified order in Python anyway).  `base_path` and
`imported_files` serve only the unmodelled import statement, and
`current_theorem` is assigned once and never read, so they are
omitted. -/
structure PState where
  toks : List Tok
  assumptions : List Ast := []
  steps : List Step := []
  claim : Option Ast := none
  vars : List String := []
  var_types : VarTypes := []
  theorems : List (String × TheoremDef) := []
  errors : List String := []
  deriving Repr

/-- The error payload of a raised `ParseError`: the formatted message
together with the parser state at the raise point. -/
abbrev PErr := String × PState

/-- `self.current()`. -/
def cur (s : PState) : Tok := s.toks.headD eofTok

/-- `self.advance()` (the consumed token is read via `cur` first). -/
def adv (s : PState) : PState := { s with toks := s.toks.tail }

/-- `ParseError.__init__`: prefix the message with the location. -/
def locMsg (msg : String) (t : Tok) : String :=
  let l := t.line
  let c := t.col
  s!"line {l}, col {c}: {msg}"

/-- `self.expect(token_type)`.  (The source quotes the token value with
`!r`; the quotes are dropped.) -/
def expectT (ty : String) (s : PState) : Except PErr (Tok × PState) :=
  let t := cur s
  if t.type = ty then .ok (t, adv s)
  else
    let tt := t.type
    let tv := t.value
    .error (locMsg s!"Expected {ty}, got {tt} ({tv})" t, s)

/-- `self.skip_newlines()` on the token suffix. -/
def skipNlToks : List Tok → List Tok
  | [] => []
  | t :: rest => if t.type = "NEWLINE" then skipNlToks rest else t :: rest

/-- `self.skip_newlines()`. -/
def skipNl (s : PState) : PState := { s with toks := skipNlToks s.toks }

/-- The statement-starting token kinds of `recover_to_next_statement`. -/
def statementStarters : List String :=
  ["ASSUME", "PROVE", "HAVE", "ASSERT", "LET", "THEOREM", "APPLY", "IMPORT",
   "CASES", "EOF"]

/-- `self.recover_to_next_statement()`: skip tokens until a newline whose
successor starts a statement (or until end of input). -/
def recoverToks : List Tok → List Tok
  | [] => []
  | t :: rest =>
      if t.type = "EOF" then t :: rest
      else if t.type = "NEWLINE" then
        if (rest.headD eofTok).type ∈ statementStarters then rest
        else recoverToks rest
      else recoverToks rest

/-- The `op_map` of `parse_relation`. -/
def opMapGet (ty : String) : String :=
  if ty = "LT" then "<"
  else if ty = "LE" then "<="
  else if ty = "EQ" then "="
  else if ty = "NE" then "!="
  else if ty = "GT" then ">"
  else ">="

/-- The relation token kinds tested by `parse_relation`. -/
def relTokTypes : List String := ["LT", "LE", "EQ", "NE", "GT", "GE"]

mutual

/-- `parse_formula`. -/
def parse_formula (fuel : Nat) (s : PState) : Except PErr (Ast × PState) :=
  match fuel with
  | 0 => .error ("out of fuel", s)
  | fuel + 1 => parse_implies fuel s

/-- `parse_implies` (right-associative). -/
def parse_implies (fuel : Nat) (s : PState) : Except PErr (Ast × PState) :=
  match fuel with
  | 0 => .error ("out of fuel", s)
  | fuel + 1 => do
    let (left, s) ← parse_or fuel s
    if (cur s).type = "IMPLIES" ∨ (cur s).type = "IMPLIES_OP" then do
      let s := adv s
      let (right, s) ← parse_implies fuel s
      .ok (Ast.impliesF (some left) (some right), s)
    else .ok (left, s)

/-- `parse_or`. -/
def parse_or (fuel : Nat) (s : PState) : Except PErr (Ast × PState) :=
  match fuel with
  | 0 => .error ("out of fuel", s)
  | fuel + 1 => do
    let (left, s) ← parse_and fuel s
    let (args, s) ← parse_or_loop fuel [left] s
    match args with
    | [x] => .ok (x, s)
    | _ => .ok (Ast.orF args, s)

/-- The `while self.match('OR')` loop of `parse_or`. -/
def parse_or_loop (fuel : Nat) (args : List Ast) (s : PState) :
    Except PErr (List Ast × PState) :=
  match fuel with
  | 0 => .error ("out of fuel", s)
  | fuel + 1 =>
    if (cur s).type = "OR" then do
      let s := adv s
      let (a, s) ← parse_and fuel s
      parse_or_loop fuel (args ++ [a]) s
    else .ok (args, s)

/-- `parse_and`. -/
def parse_and (fuel : Nat) (s : PState) : Except PErr (Ast × PState) :=
  match fuel with
  | 0 => .error ("out of fuel", s)
  | fuel + 1 => do
    let (left, s) ← parse_not fuel s
    let (args, s) ← parse_and_loop fuel [left] s
    match args with
    | [x] => .ok (x, s)
    | _ => .ok (Ast.andF args, s)

/-- The `while self.match('AND')` loop of `parse_and`. -/
def parse_and_loop (fuel : Nat) (args : List Ast) (s : PState) :
    Except PErr (List Ast × PState) :=
  match fuel with
  | 0 => .error ("out of fuel", s)
  | fuel + 1 =>
    if (cur s).type = "AND" then do
      let s := adv s
      let (a, s) ← parse_not fuel s
      parse_and_loop fuel (args ++ [a]) s
    else .ok (args, s)

/-- `parse_not`. -/
def parse_not (fuel : Nat) (s : PState) : Except PErr (Ast × PState) :=
  match fuel with
  | 0 => .error ("out of fuel", s)
  | fuel + 1 =>
    if (cur s).type = "NOT" then do
      let s := adv s
      let (arg, s) ← parse_not fuel s
      .ok (Ast.notF (some arg), s)
    else parse_quantifier fuel s

/-- `parse_quantifier`: the bound names are added to `variables` before
the body is parsed. -/
def parse_quantifier (fuel : Nat) (s : PState) : Except PErr (Ast × PState) :=
  match fuel with
  | 0 => .error ("out of fuel", s)
  | fuel + 1 =>
    if (cur s).type = "FORALL" ∨ (cur s).type = "EXISTS" then do
      let qt := (cur s).type
      let s := adv s
      let (n0, s) ← expectT "IDENT" s
      let (names, s) ← parse_qvar_loop fuel [n0.value] s
      let (_, s) ← expectT "DOT" s
      let s := { s with vars := s.vars ++ names }
      let (body, s) ← parse_formula fuel s
      if qt = "FORALL" then .ok (Ast.forallF names (some body), s)
      else .ok (Ast.existsF names (some body), s)
    else parse_relation fuel s

/-- The `while self.match('COMMA')` loop of the quantifier variable
list. -/
def parse_qvar_loop (fuel : Nat) (names : List String) (s : PState) :
    Except PErr (List String × PState) :=
  match fuel with
  | 0 => .error ("out of fuel", s)
  | fuel + 1 =>
    if (cur s).type = "COMMA" then do
      let s := adv s
      let (t, s) ← expectT "IDENT" s
      parse_qvar_loop fuel (names ++ [t.value]) s
    else .ok (names, s)

/-- `parse_relation`: chained comparisons desugar to a conjunction of
pairwise relations; a single comparison stays bare; no comparison at all
returns the plain expression. -/
def parse_relation (fuel : Nat) (s : PState) : Except PErr (Ast × PState) :=
  match fuel with
  | 0 => .error ("out of fuel", s)
  | fuel + 1 => do
    let (left, s) ← parse_expr fuel s
    if (cur s).type ∈ relTokTypes then do
      let (comps, s) ← parse_rel_loop fuel left [] s
      match comps with
      | [x] => .ok (x, s)
      | _ => .ok (Ast.andF comps, s)
    else .ok (left, s)

/-- The comparison chain loop of `parse_relation`: each link keeps its
own operator, and the right side becomes the left side of the next
link. -/
def parse_rel_loop (fuel : Nat) (current_left : Ast) (comps : List Ast)
    (s : PState) : Except PErr (List Ast × PState) :=
  match fuel with
  | 0 => .error ("out of fuel", s)
  | fuel + 1 =>
    if (cur s).type ∈ relTokTypes then do
      let t := cur s
      let s := adv s
      let op := opMapGet t.type
      let (right, s) ← parse_expr fuel s
      parse_rel_loop fuel right
        (comps ++ [Ast.rel (some op) (some current_left) (some right)]) s
    else .ok (comps, s)

/-- `parse_expr` (additive level). -/
def parse_expr (fuel : Nat) (s : PState) : Except PErr (Ast × PState) :=
  match fuel with
  | 0 => .error ("out of fuel", s)
  | fuel + 1 => do
    let (left, s) ← parse_term fuel s
    parse_expr_loop fuel left s

/-- The `while self.match('PLUS', 'MINUS')` loop of `parse_expr`. -/
def parse_expr_loop (fuel : Nat) (left : Ast) (s : PState) : Except PErr (Ast × PState) :=
  match fuel with
  | 0 => .error ("out of fuel", s)
  | fuel + 1 =>
    if (cur s).type = "PLUS" ∨ (cur s).type = "MINUS" then do
      let op := if (cur s).type = "PLUS" then "+" else "-"
      let s := adv s
      let (right, s) ← parse_term fuel s
      parse_expr_loop fuel (Ast.bin (some op) (some left) (some right)) s
    else .ok (left, s)

/-- `parse_term` (multiplicative level). -/
def parse_term (fuel : Nat) (s : PState) : Except PErr (Ast × PState) :=
  match fuel with
  | 0 => .error ("out of fuel", s)
  | fuel + 1 => do
    let (left, s) ← parse_power fuel s
    parse_term_loop fuel left s

/-- The `while self.match('STAR', 'SLASH')` loop of `parse_term`. -/
def parse_term_loop (fuel : Nat) (left : Ast) (s : PState) : Except PErr (Ast × PState) :=
  match fuel with
  | 0 => .error ("out of fuel", s)
  | fuel + 1 =>
    if (cur s).type = "STAR" ∨ (cur s).type = "SLASH" then do
      let op := if (cur s).type = "STAR" then "*" else "/"
      let s := adv s
      let (right, s) ← parse_power fuel s
      parse_term_loop fuel (Ast.bin (some op) (some left) (some right)) s
    else .ok (left, s)

/-- `parse_power` (right-associative). -/
def parse_power (fuel : Nat) (s : PState) : Except PErr (Ast × PState) :=
  match fuel with
  | 0 => .error ("out of fuel", s)
  | fuel + 1 => do
    let (base, s) ← parse_unary fuel s
    if (cur s).type = "CARET" then do
      let s := adv s
      let (e, s) ← parse_power fuel s
      .ok (Ast.powA (some base) (some e), s)
    else .ok (base, s)

/-- `parse_unary`. -/
def parse_unary (fuel : Nat) (s : PState) : Except PErr (Ast × PState) :=
  match fuel with
  | 0 => .error ("out of fuel", s)
  | fuel + 1 =>
    if (cur s).type = "MINUS" then do
      let s := adv s
      let (arg, s) ← parse_unary fuel s
      .ok (Ast.negA (some arg), s)
    else parse_atom fuel s

/-- `parse_atom`.  An identifier is recorded in `variables`; a
parenthesised expression re-enters the full formula grammar; `true` /
`false` become the empty conjunction / disjunction. -/
def parse_atom (fuel : Nat) (s : PState) : Except PErr (Ast × PState) :=
  match fuel with
  | 0 => .error ("out of fuel", s)
  | fuel + 1 =>
    let t := cur s
    if t.type = "NUMBER" then .ok (Ast.num (some t.value), adv s)
    else if t.type = "IDENT" then
      let s := adv s
      let s := { s with vars := s.vars ++ [t.value] }
      .ok (Ast.var (some t.value), s)
    else if t.type = "FUNC" then do
      let fname := t.value
      let s := adv s
      let (_, s) ← expectT "LPAREN" s
      let (a0, s) ← parse_expr fuel s
      let (args, s) ← parse_args_loop fuel [a0] s
      let (_, s) ← expectT "RPAREN" s
      if fname = "abs" then
        match args with
        | [a] => .ok (Ast.absA (some a), s)
        | _ =>
            let n := args.length
            .error (locMsg s!"abs() takes 1 argument, got {n}" t, s)
      else if fname = "sqrt" then
        match args with
        | [a] => .ok (Ast.sqrtA (some a), s)
        | _ =>
            let n := args.length
            .error (locMsg s!"sqrt() takes 1 argument, got {n}" t, s)
      else if fname = "min" then
        if args.length < 2 then
          .error (locMsg "min() requires at least 2 arguments" t, s)
        else .ok (Ast.minA args, s)
      else if fname = "max" then
        if args.length < 2 then
          .error (locMsg "max() requires at least 2 arguments" t, s)
        else .ok (Ast.maxA args, s)
      else .error (locMsg s!"Unknown function: {fname}" t, s)
    else if t.type = "LPAREN" then do
      let s := adv s
      let (e, s) ← parse_formula fuel s
      let (_, s) ← expectT "RPAREN" s
      .ok (e, s)
    else if t.type = "PIPE" then do
      let s := adv s
      let (arg, s) ← parse_expr fuel s
      let (_, s) ← expectT "PIPE" s
      .ok (Ast.absA (some arg), s)
    else if t.type = "TRUE" then .ok (Ast.andF [], adv s)
    else if t.type = "FALSE" then .ok (Ast.orF [], adv s)
    else
      let tt := t.type
      let tv := t.value
      .error (locMsg s!"Unexpected token: {tt} ({tv})" t, s)

/-- The `while self.match('COMMA')` loop of a function-call argument
list. -/
def parse_args_loop (fuel : Nat) (args : List Ast) (s : PState) :
    Except PErr (List Ast × PState) :=
  match fuel with
  | 0 => .error ("out of fuel", s)
  | fuel + 1 =>
    if (cur s).type = "COMMA" then do
      let s := adv s
      let (a, s) ← parse_expr fuel s
      parse_args_loop fuel (args ++ [a]) s
    else .ok (args, s)

/-- `parse_statement`: dispatch on the first token kind.  The `import`
branch reads other files from disk; the embedding has no file system,
so it is left unmodelled (no claim involves imports). -/
def parse_statement (fuel : Nat) (s : PState) : Except PErr (Unit × PState) :=
  match fuel with
  | 0 => .error ("out of fuel", s)
  | fuel + 1 =>
    let t := cur s
    if t.type = "ASSUME" then do
      let s := adv s
      let (f, s) ← parse_formula fuel s
      .ok ((), { s with assumptions := s.assumptions ++ [f] })
    else if t.type = "PROVE" then do
      let s := adv s
      let (f, s) ← parse_formula fuel s
      .ok ((), { s with claim := some f })
    else if t.type = "HAVE" ∨ t.type = "ASSERT" then do
      let s := adv s
      let (f, s) ← parse_formula fuel s
      .ok ((), { s with steps := s.steps ++ [{ formula := some f }] })
    else if t.type = "LET" then do
      let s := adv s
      let (nameTok, s) ← expectT "IDENT" s
      let name := nameTok.value
      -- type annotation: let x: Int
      let (var_type, s) ← (do
        if (cur s).type = "COLON" then
          let s := adv s
          let ty := cur s
          if ty.type = "INT" ∨ ty.type = "REAL" then
            .ok ((if ty.type = "INT" then "Int" else "Real"), adv s)
          else
            let tt := ty.type
            .error (locMsg s!"Expected Int or Real, got {tt}" ty, s)
        else .ok ("Real", s) : Except PErr (String × PState))
      -- set membership: let x in R / Z / N / Q, optional +
      let ((var_type, constraint), s) ← (do
        if (cur s).type = "IN" then
          let s := adv s
          if (cur s).type = "SET" then
            let set_name := (cur s).value
            let s := adv s
            let (is_positive, s) :=
              if (cur s).type = "PLUS" then (true, adv s) else (false, s)
            if set_name = "R" then
              .ok (("Real", if is_positive then some (">", 0) else none), s)
            else if set_name = "Z" then
              .ok (("Int", if is_positive then some (">", 0) else none), s)
            else if set_name = "N" then
              .ok (("Int", some (if is_positive then (">", 0) else (">=", 0))), s)
            else if set_name = "Q" then
              .ok (("Real", if is_positive then some (">", 0) else none), s)
            else .ok ((var_type, none), s)
          else
            let ct := (cur s).type
            .error (locMsg s!"Expected set name (R, Z, N, Q), got {ct}"
              (cur s), s)
        else .ok ((var_type, none), s) : Except PErr ((String × Option (String × Nat)) × PState))
      -- optional initialiser: let x = E (consumed and discarded)
      let (_, s) ← (do
        if (cur s).type = "EQ" then
          let s := adv s
          let (_, s) ← parse_expr fuel s
          .ok ((), s)
        else .ok ((), s) : Except PErr (Unit × PState))
      let s := { s with vars := s.vars ++ [name],
                        var_types := vtSet s.var_types name var_type }
      match constraint with
      | some (op, val) =>
          let c : Ast := .rel (some op) (some (.var (some name)))
            (some (.num (some (toString val))))
          .ok ((), { s with assumptions := s.assumptions ++ [c] })
      | none => .ok ((), s)
    else if t.type = "THEOREM" then parse_theorem fuel s
    else if t.type = "APPLY" then do
      let s := adv s
      let (nameTok, s) ← expectT "IDENT" s
      let theorem_name := nameTok.value
      match thGet s.theorems theorem_name with
      | none => .error (locMsg s!"Unknown theorem: {theorem_name}" t, s)
      | some thm =>
          match thm.assumptions with
          | [] =>
              .ok ((), { s with assumptions := s.assumptions ++ [thm.conclusion] })
          | [single] =>
              let impl : Ast := .impliesF (some single) (some thm.conclusion)
              .ok ((), { s with assumptions := s.assumptions ++ [impl] })
          | multiple =>
              let impl : Ast :=
                .impliesF (some (.andF multiple)) (some thm.conclusion)
              .ok ((), { s with assumptions := s.assumptions ++ [impl] })
    else if t.type = "IMPORT" then
      .error (locMsg "Import statements are outside this embedding" t, s)
    else if t.type = "CASES" then parse_cases fuel s
    else
      let tt := t.type
      .error (locMsg s!"Expected statement keyword (assume/suppose, prove/show, have/so, let/define, theorem/lemma, apply/use, import, or cases), got {tt}" t, s)

/-- `parse_theorem`: parse a nested statement list into fresh
`assumptions` / `claim`, store the pair, restore the outer fields. -/
def parse_theorem (fuel : Nat) (s : PState) : Except PErr (Unit × PState) :=
  match fuel with
  | 0 => .error ("out of fuel", s)
  | fuel + 1 => do
    let s := adv s
    let (name_tok, s) ← expectT "IDENT" s
    let theorem_name := name_tok.value
    let (_, s) ← expectT "COLON" s
    let s := skipNl s
    let old_assumptions := s.assumptions
    let old_claim := s.claim
    let s := { s with assumptions := [], claim := none }
    let ((), s) ← parse_theorem_loop fuel s
    match s.claim with
    | none =>
        .error (locMsg s!"Theorem {theorem_name} has no prove statement"
          name_tok, s)
    | some c =>
        let s := { s with
          theorems := thSet s.theorems theorem_name ⟨s.assumptions, c⟩ }
        .ok ((), { s with assumptions := old_assumptions, claim := old_claim })

/-- The `while not EOF and claim is None` loop of `parse_theorem`. -/
def parse_theorem_loop (fuel : Nat) (s : PState) : Except PErr (Unit × PState) :=
  match fuel with
  | 0 => .error ("out of fuel", s)
  | fuel + 1 =>
    if (cur s).type ≠ "EOF" ∧ s.claim.isNone then do
      let ((), s) ← parse_statement fuel s
      parse_theorem_loop fuel (skipNl s)
    else .ok ((), s)

/-- `parse_cases`: collect the `case C: ...` list into one step of kind
`cases`. -/
def parse_cases (fuel : Nat) (s : PState) : Except PErr (Unit × PState) :=
  match fuel with
  | 0 => .error ("out of fuel", s)
  | fuel + 1 => do
    let s := adv s
    let (_, s) ← expectT "COLON" s
    let s := skipNl s
    let (cases, s) ← parse_cases_loop fuel [] s
    match cases with
    | [] =>
        .error (locMsg "cases block requires at least one case" (cur s), s)
    | _ =>
        .ok ((), { s with steps := s.steps ++ [{ type := some "cases", cases := cases }] })

/-- The `while self.match('CASE')` loop of `parse_cases`. -/
def parse_cases_loop (fuel : Nat) (acc : List Case) (s : PState) :
    Except PErr (List Case × PState) :=
  match fuel with
  | 0 => .error ("out of fuel", s)
  | fuel + 1 =>
    if (cur s).type = "CASE" then do
      let s := adv s
      let (condition, s) ← parse_formula fuel s
      let (_, s) ← expectT "COLON" s
      let s := skipNl s
      let (case_steps, s) ← parse_case_steps_loop fuel [] s
      parse_cases_loop fuel
        (acc ++ [{ condition := condition, steps := case_steps }]) s
    else .ok (acc, s)

/-- The inner statement loop of one case: `have` / `assert` formulas are
collected, newlines are skipped, anything else ends the case. -/
def parse_case_steps_loop (fuel : Nat) (acc : List CaseStep) (s : PState) :
    Except PErr (List CaseStep × PState) :=
  match fuel with
  | 0 => .error ("out of fuel", s)
  | fuel + 1 =>
    let t := cur s
    if t.type ∈ ["CASE", "EOF", "PROVE", "ASSUME", "LET", "THEOREM", "IMPORT", "CASES"] then
      .ok (acc, s)
    else if t.type = "HAVE" ∨ t.type = "ASSERT" then do
      let s := adv s
      let (f, s) ← parse_formula fuel s
      parse_case_steps_loop fuel (acc ++ [{ formula := some f }]) (skipNl s)
    else if t.type = "NEWLINE" then parse_case_steps_loop fuel acc (adv s)
    else .ok (acc, s)

end

/-- The result dict of `Parser.parse`.  In the source the `theorems` key
is present only when non-empty; here it is always a list, `[]` standing
for the absent key. -/
structure ParseResult where
  vars : List String
  var_types : VarTypes
  assumptions : List Ast
  steps : List Step
  claim : Ast
  theorems : List (String × TheoremDef)
  deriving Repr

/-- The statement loop of `Parser.parse` with its error recovery: a
raised `ParseError` is appended to `errors` and the token stream is
advanced to the next statement start. -/
def parse_top_loop (fuel : Nat) (s : PState) : Except String PState :=
  match fuel with
  | 0 => .error "out of fuel"
  | fuel + 1 =>
    if (cur s).type = "EOF" then .ok s
    else
      match parse_statement fuel s with
      | .ok ((), s2) => parse_top_loop fuel (skipNl s2)
      | .error (msg, s2) =>
          let s3 := { s2 with errors := s2.errors ++ [msg],
                              toks := recoverToks s2.toks }
          parse_top_loop fuel (skipNl s3)

/-- `Parser(tokens).parse()`: run the recovering statement loop, then
either raise the aggregated error list, raise for a missing claim, or
assemble the result dict. -/
def parser_parse (fuel : Nat) (tokens : List Tok) :
    Except String ParseResult := do
  let s0 : PState := { toks := skipNlToks tokens }
  let s ← parse_top_loop fuel s0
  match s.errors with
  | _ :: _ =>
      let n := s.errors.length
      let lines := s.errors.map (fun e => s!"  - {e}")
      let joined := String.intercalate "\n" lines
      .error s!"Found {n} error(s):\n{joined}"
  | [] =>
      match s.claim with
      | none => .error "No prove statement found"
      | some c =>
          .ok { vars := s.vars, var_types := s.var_types,
                assumptions := s.assumptions, steps := s.steps,
                claim := c, theorems := s.theorems }

/-- `parse(source)` of `parser.py`: tokenize, then parse.  `fuel` bounds
the recursion of the embedded recursive-descent loops; all concrete runs
below use a fuel far above what their inputs need. -/
def parseDsl (fuel : Nat) (source : String) : Except String ParseResult := do
  let tokens ← tokenize source
  parser_parse fuel tokens

/-! ## Environment lemmas

The driver and translator write only *canonical* bindings into the
environment: every entry maps a name to the constant `mkVar var_types
name`.  Because of that, although quantifier translation overwrites
entries in place (and leaves them there on return), it can never change
the value an existing name maps to — the fact behind claims C1 and C4. -/

/-- Characterisation of a dict write. -/
theorem envFind_envSet (env : Env) (m n : String) (v : Z3Expr) :
    envFind (envSet env m v) n = if m = n then some v else envFind env n := by
  induction env with
  | nil => simp [envSet, envFind]
  | cons p rest ih =>
      obtain ⟨k, w⟩ := p
      by_cases hkm : k = m
      · subst hkm
        by_cases hkn : k = n <;> simp [envSet, envFind, hkn]
      · by_cases hkn : k = n
        · subst hkn
          have hmn : m ≠ k := fun h => hkm h.symm
          simp [envSet, envFind, hkm, hmn]
        · simp [envSet, envFind, hkm, hkn, ih]

/-- A member of a dict after a write is the written pair or an original
member. -/
theorem mem_envSet {env : Env} {m : String} {v : Z3Expr} {p : String × Z3Expr}
    (h : p ∈ envSet env m v) : p = (m, v) ∨ p ∈ env := by
  induction env with
  | nil => simpa [envSet] using h
  | cons q rest ih =>
      obtain ⟨k, w⟩ := q
      by_cases hkm : k = m
      · subst hkm
        rcases (by simpa [envSet] using h : p = (k, v) ∨ p ∈ rest) with h1 | h1
        · exact Or.inl h1
        · exact Or.inr (List.mem_cons_of_mem _ h1)
      · rcases (by simpa [envSet, hkm] using h :
          p = (k, w) ∨ p ∈ envSet rest m v) with h1 | h1
        · exact Or.inr (by simp [h1])
        · rcases ih h1 with h2 | h2
          · exact Or.inl h2
          · exact Or.inr (List.mem_cons_of_mem _ h2)

/-- A successful lookup exhibits a member. -/
theorem envFind_mem {env : Env} {n : String} {v : Z3Expr}
    (h : envFind env n = some v) : (n, v) ∈ env := by
  induction env with
  | nil => simp [envFind] at h
  | cons p rest ih =>
      obtain ⟨k, w⟩ := p
      by_cases hkn : k = n
      · subst hkn
        simp [envFind] at h
        simp [h]
      · simp [envFind, hkn] at h
        exact List.mem_cons_of_mem _ (ih h)

/-- Every binding of the environment is the canonical constant of its
name. -/
def canonicalEnv (var_types : VarTypes) (env : Env) : Prop :=
  ∀ p ∈ env, p.2 = mkVar var_types p.1

/-- `env'` preserves every binding of `env`. -/
def envExtends (env env' : Env) : Prop :=
  ∀ n v, envFind env n = some v → envFind env' n = some v

theorem envExtends_refl (env : Env) : envExtends env env := fun _ _ h => h

theorem envExtends_trans {a b c : Env} (h1 : envExtends a b)
    (h2 : envExtends b c) : envExtends a c :=
  fun n v h => h2 n v (h1 n v h)

/-- Writing a canonical binding keeps the environment canonical. -/
theorem canonicalEnv_envSet {var_types : VarTypes} {env : Env}
    (h : canonicalEnv var_types env) (n : String) :
    canonicalEnv var_types (envSet env n (mkVar var_types n)) := by
  intro p hp
  rcases mem_envSet hp with h1 | h1
  · simp [h1]
  · exact h p h1

/-- Writing a canonical binding into a canonical environment preserves
every existing lookup (the written value can only coincide with what was
already there). -/
theorem envExtends_envSet_canonical {var_types : VarTypes} {env : Env}
    (h : canonicalEnv var_types env) (n : String) :
    envExtends env (envSet env n (mkVar var_types n)) := by
  intro m v hm
  rw [envFind_envSet]
  by_cases hnm : n = m
  · subst hnm
    have := h _ (envFind_mem hm)
    simp at this
    simp [this]
  · simp [hnm, hm]

/-- The quantifier fold `for name in names: env[name] = mkVar name`
keeps the environment canonical and preserves existing lookups. -/
theorem canonical_fold {var_types : VarTypes} :
    ∀ (names : List String) (env : Env), canonicalEnv var_types env →
      canonicalEnv var_types
        (names.foldl (fun e n => envSet e n (mkVar var_types n)) env) ∧
      envExtends env
        (names.foldl (fun e n => envSet e n (mkVar var_types n)) env) := by
  intro names
  induction names with
  | nil => exact fun env h => ⟨h, envExtends_refl env⟩
  | cons n rest ih =>
      intro env h
      have h1 := canonicalEnv_envSet h n
      have h2 := envExtends_envSet_canonical h n
      rcases ih (envSet env n (mkVar var_types n)) h1 with ⟨h3, h4⟩
      exact ⟨h3, envExtends_trans h2 h4⟩

/-- The driver initialisation produces a canonical environment in which
every declared variable is bound. -/
theorem initEnv_canonical (declared_vars : List String)
    (var_types : VarTypes) :
    canonicalEnv var_types (initEnv declared_vars var_types) := by
  have h := (@canonical_fold var_types declared_vars ([] : Env)
    (by intro p hp; simp at hp)).1
  simpa [initEnv] using h

/-- Every declared variable is a key of `initEnv`. -/
theorem initEnv_mem (declared_vars : List String) (var_types : VarTypes) :
    ∀ x ∈ declared_vars,
      envFind (initEnv declared_vars var_types) x = some (mkVar var_types x) := by
  suffices h : ∀ (l : List String) (env : Env) (x : String),
      (x ∈ l ∨ envFind env x = some (mkVar var_types x)) →
      envFind (l.foldl (fun e n => envSet e n (mkVar var_types n)) env) x =
        some (mkVar var_types x) by
    intro x hx
    exact h declared_vars [] x (Or.inl hx)
  intro l
  induction l with
  | nil =>
      intro env x hx
      rcases hx with hx | hx
      · simp at hx
      · simpa using hx
  | cons n rest ih =>
      intro env x hx
      simp only [List.foldl_cons]
      apply ih
      by_cases hnx : n = x
      · subst hnx
        right
        rw [envFind_envSet]
        simp
      · rcases hx with hx | hx
        · rcases List.mem_cons.mp hx with h1 | h1
          · exact absurd h1.symm hnx
          · exact Or.inl h1
        · right
          rw [envFind_envSet]
          simp [hnx, hx]

/-- Decomposition of a successful `Except` bind. -/
theorem except_bind_ok {ε α β : Type} {e : Except ε α} {f : α → Except ε β}
    {b : β} :
    e >>= f = .ok b ↔ ∃ a, e = .ok a ∧ f a = .ok b := by
  cases e <;> simp [Bind.bind, Except.bind]

/-- Binding every name of a list to its canonical constant, starting from
an environment in which the name may or may not be present, makes it
present with that constant. -/
theorem fold_mem {var_types : VarTypes} :
    ∀ (l : List String) (env : Env) (x : String),
      (x ∈ l ∨ envFind env x = some (mkVar var_types x)) →
      envFind (l.foldl (fun e n => envSet e n (mkVar var_types n)) env) x =
        some (mkVar var_types x) := by
  intro l
  induction l with
  | nil =>
      intro env x hx
      rcases hx with hx | hx
      · simp at hx
      · simpa using hx
  | cons n rest ih =>
      intro env x hx
      simp only [List.foldl_cons]
      apply ih
      by_cases hnx : n = x
      · subst hnx
        right
        rw [envFind_envSet]
        simp
      · rcases hx with hx | hx
        · rcases List.mem_cons.mp hx with h1 | h1
          · exact absurd h1.symm hnx
          · exact Or.inl h1
        · right
          rw [envFind_envSet]
          simp [hnx, hx]

set_option maxHeartbeats 1000000 in
/-- A successful term translation started from a canonical environment
returns a canonical environment that preserves every existing binding:
the translator can add bindings (for variables it meets first) and
rewrite bindings in place, but only ever with the canonical constant. -/
theorem term_to_z3_good :
    ∀ (t : Ast) (env : Env) (var_types : VarTypes),
      ∀ e env', term_to_z3 t env var_types = .ok (e, env') →
        canonicalEnv var_types env →
        canonicalEnv var_types env' ∧ envExtends env env' := by
  apply @term_to_z3.induct
    (fun t env vt => ∀ e env', term_to_z3 t env vt = .ok (e, env') →
        canonicalEnv vt env → canonicalEnv vt env' ∧ envExtends env env')
    (fun isMin args r env vt => ∀ e env',
        minmax_fold isMin args r env vt = .ok (e, env') →
        canonicalEnv vt env → canonicalEnv vt env' ∧ envExtends env env')
  all_goals intros
  all_goals (try (rename_i hok hcan; simp [term_to_z3, except_bind_ok] at hok))
  case case4 =>
    rcases hok with ⟨-, h⟩
    subst h
    exact ⟨hcan, envExtends_refl _⟩
  case case6 =>
    rename_i e1 hfind e env'
    rw [hfind] at hok
    simp at hok
    rcases hok with ⟨-, h⟩
    subst h
    exact ⟨hcan, envExtends_refl _⟩
  case case7 =>
    rename_i hfind e env'
    rw [hfind] at hok
    simp at hok
    rcases hok with ⟨-, h⟩
    subst h
    exact ⟨canonicalEnv_envSet hcan _, envExtends_envSet_canonical hcan _⟩
  case case9 =>
    rename_i ihl ihr e env'
    rcases hok with ⟨a, env1, h1, b, env2, h2, hok⟩
    split_ifs at hok <;> simp at hok <;>
      (rcases hok with ⟨-, h4⟩
       subst h4
       obtain ⟨hc1, hx1⟩ := ihl _ _ h1 hcan
       obtain ⟨hc2, hx2⟩ := ihr _ _ _ h2 hc1
       exact ⟨hc2, envExtends_trans hx1 hx2⟩)
  case case12 =>
    rename_i ih e env'
    rcases hok with ⟨a, h1, -⟩
    exact ih _ _ h1 hcan
  case case14 =>
    rename_i ih e env'
    rcases hok with ⟨a, h1, -⟩
    exact ih _ _ h1 hcan
  case case15 =>
    rename_i ihl ihr e env'
    rcases hok with ⟨a, env1, h1, c, h2, -⟩
    obtain ⟨hc1, hx1⟩ := ihl _ _ h1 hcan
    obtain ⟨hc2, hx2⟩ := ihr _ _ _ h2 hc1
    exact ⟨hc2, envExtends_trans hx1 hx2⟩
  case case18 =>
    rename_i ih e env'
    rcases hok with ⟨a, h1, -⟩
    exact ih _ _ h1 hcan
  case case19 =>
    rename_i ih0 ihf e env'
    rcases hok with ⟨a, b, h1, h2⟩
    obtain ⟨hc1, hx1⟩ := ih0 _ _ h1 hcan
    obtain ⟨hc2, hx2⟩ := ihf _ _ _ _ h2 hc1
    exact ⟨hc2, envExtends_trans hx1 hx2⟩
  case case21 =>
    rename_i ih0 ihf e env'
    rcases hok with ⟨a, b, h1, h2⟩
    obtain ⟨hc1, hx1⟩ := ih0 _ _ h1 hcan
    obtain ⟨hc2, hx2⟩ := ihf _ _ _ _ h2 hc1
    exact ⟨hc2, envExtends_trans hx1 hx2⟩
  case case24 =>
    rename_i hok hcan
    simp [minmax_fold] at hok
    rcases hok with ⟨-, h⟩
    subst h
    exact ⟨hcan, envExtends_refl _⟩
  case case25 =>
    rename_i ih0 ihf e env' hok hcan
    simp [minmax_fold, except_bind_ok] at hok
    rcases hok with ⟨a, b, h1, h2⟩
    obtain ⟨hc1, hx1⟩ := ih0 _ _ h1 hcan
    obtain ⟨hc2, hx2⟩ := ihf _ _ _ _ h2 hc1
    exact ⟨hc2, envExtends_trans hx1 hx2⟩

set_option maxHeartbeats 1000000 in
/-- `formula_to_z3` analogue of `term_to_z3_good`: a successful formula
translation keeps a canonical environment canonical and preserves every
existing binding — quantifier bindings included, because the bound
constant is the same canonical constant a free variable of that name
gets. -/
theorem formula_to_z3_good :
    ∀ (f : Ast) (env : Env) (var_types : VarTypes),
      ∀ e env', formula_to_z3 f env var_types = .ok (e, env') →
        canonicalEnv var_types env →
        canonicalEnv var_types env' ∧ envExtends env env' := by
  apply @formula_to_z3.induct
    (fun f env vt => ∀ e env', formula_to_z3 f env vt = .ok (e, env') →
        canonicalEnv vt env → canonicalEnv vt env' ∧ envExtends env env')
    (fun args env vt => ∀ zs env', formula_list args env vt = .ok (zs, env') →
        canonicalEnv vt env → canonicalEnv vt env' ∧ envExtends env env')
  all_goals intros
  all_goals (try (rename_i hok hcan; simp [formula_to_z3, formula_list, except_bind_ok] at hok))
  case case4 =>
    rename_i e env'
    rcases hok with ⟨a, env1, h1, b, env2, h2, hok⟩
    split_ifs at hok <;> simp at hok <;>
      (rcases hok with ⟨-, h4⟩
       subst h4
       obtain ⟨hc1, hx1⟩ := term_to_z3_good _ _ _ _ _ h1 hcan
       obtain ⟨hc2, hx2⟩ := term_to_z3_good _ _ _ _ _ h2 hc1
       exact ⟨hc2, envExtends_trans hx1 hx2⟩)
  case case6 =>
    rcases hok with ⟨-, h⟩
    subst h
    exact ⟨hcan, envExtends_refl _⟩
  case case8 =>
    rcases hok with ⟨-, h⟩
    subst h
    exact ⟨hcan, envExtends_refl _⟩
  case case7 =>
    rename_i ih e env'
    rcases hok with ⟨a, h1, -⟩
    exact ih _ _ h1 hcan
  case case9 =>
    rename_i ih e env'
    rcases hok with ⟨a, h1, -⟩
    exact ih _ _ h1 hcan
  case case11 =>
    rename_i ih e env'
    rcases hok with ⟨a, h1, -⟩
    exact ih _ _ h1 hcan
  case case12 =>
    rename_i ihl ihr e env'
    rcases hok with ⟨a, env1, h1, b, h2, -⟩
    obtain ⟨hc1, hx1⟩ := ihl _ _ h1 hcan
    obtain ⟨hc2, hx2⟩ := ihr _ _ _ h2 hc1
    exact ⟨hc2, envExtends_trans hx1 hx2⟩
  case case16 =>
    rename_i vars body envlet hne ih e env'
    rcases hok with ⟨a, h1, -⟩
    obtain ⟨hcf, hxf⟩ := canonical_fold vars _ hcan
    obtain ⟨hc2, hx2⟩ := ih _ _ h1 hcf
    exact ⟨hc2, envExtends_trans hxf hx2⟩
  case case19 =>
    rename_i vars body envlet hne ih e env'
    rcases hok with ⟨a, h1, -⟩
    obtain ⟨hcf, hxf⟩ := canonical_fold vars _ hcan
    obtain ⟨hc2, hx2⟩ := ih _ _ h1 hcf
    exact ⟨hc2, envExtends_trans hxf hx2⟩
  case case21 =>
    rcases hok with ⟨-, h⟩
    subst h
    exact ⟨hcan, envExtends_refl _⟩
  case case22 =>
    rename_i ihh iht zs env'
    rcases hok with ⟨a, b, h1, c, h2, -⟩
    obtain ⟨hc1, hx1⟩ := ihh _ _ h1 hcan
    obtain ⟨hc2, hx2⟩ := iht _ _ _ h2 hc1
    exact ⟨hc2, envExtends_trans hx1 hx2⟩

/-- The shared-environment assumption loop of the final claim check
preserves canonicity and existing bindings. -/
theorem add_all_shared_good :
    ∀ (fs : List Ast) (env : Env) (var_types : VarTypes) (zs : List Z3Expr)
      (env' : Env),
      add_all_shared fs env var_types = .ok (zs, env') →
      canonicalEnv var_types env →
      canonicalEnv var_types env' ∧ envExtends env env' := by
  intro fs
  induction fs with
  | nil =>
      intro env vt zs env' h hcan
      simp [add_all_shared] at h
      rcases h with ⟨-, h⟩
      subst h
      exact ⟨hcan, envExtends_refl _⟩
  | cons f rest ih =>
      intro env vt zs env' h hcan
      simp [add_all_shared, except_bind_ok] at h
      rcases h with ⟨a, b, h1, c, h2, -⟩
      obtain ⟨hc1, hx1⟩ := formula_to_z3_good _ _ _ _ _ h1 hcan
      obtain ⟨hc2, hx2⟩ := ih _ _ _ _ h2 hc1
      exact ⟨hc2, envExtends_trans hx1 hx2⟩

/-! ## Concrete fixtures shared by witnesses -/

/-- An oracle answering `unsat` to every query. -/
def oracleUnsat : Z3Oracle :=
  { check := fun _ => .unsat, modelEval := fun _ _ => "0" }

/-- An oracle answering `sat` to every query, with a fixed model text. -/
def oracleSat : Z3Oracle :=
  { check := fun _ => .sat, modelEval := fun _ _ => "1/2" }

/-- An oracle answering `unknown` to every query. -/
def oracleUnknown : Z3Oracle :=
  { check := fun _ => .unknown, modelEval := fun _ _ => "0" }

/-- The formula `x > 0` as the parser would emit it. -/
def astXgt0 : Ast :=
  .rel (some ">") (some (.var (some "x"))) (some (.num (some "0")))

/-- The formula `x != 0` as the parser would emit it. -/
def astXne0 : Ast :=
  .rel (some "!=") (some (.var (some "x"))) (some (.num (some "0")))

/-- The formula `x * x > 0` as the parser would emit it. -/
def astXXgt0 : Ast :=
  .rel (some ">")
    (some (.bin (some "*") (some (.var (some "x"))) (some (.var (some "x")))))
    (some (.num (some "0")))

/-! ## Claims -/

/-- C4, counterexample.  The claim says the variable environment passed
into the translator is unchanged, for every quantifier-bound name, after
the translator returns.  Translating `exists y. y > 0` against the empty
environment refutes this: the returned environment contains the binding
for the bound name `y` (the source writes `env[name] = v` inside the
quantifier cases and never removes it). -/
theorem C4_counterexample :
    formula_to_z3
      (Ast.existsF ["y"]
        (some (.rel (some ">") (some (.var (some "y")))
          (some (.num (some "0")))))) [] [] =
      .ok (Z3Expr.existsE [Z3Expr.realConst "y"]
            (Z3Expr.gtE (Z3Expr.realConst "y") (Z3Expr.realVal "0")),
           [("y", Z3Expr.realConst "y")]) ∧
    [("y", Z3Expr.realConst "y")] ≠ ([] : Env) := by
  exact ⟨rfl, by simp⟩

/-- C4, amended.  Translating a quantified formula `forall/exists vs. B`
rebinds each bound name, in the environment passed in, to the canonical
constant determined by the name and `var_types`, and the binding is still
there after the translator returns.  Because the driver only ever builds
canonical environments (the same constant a free variable of that name
would get), every name already present keeps exactly its old binding, so
later translations sharing the environment still see each free constant
as before; names not previously present are added. -/
theorem C4_quantifier_env (vars : List String) (body q : Ast)
    (env env' : Env) (var_types : VarTypes) (e : Z3Expr)
    (hq : q = Ast.forallF vars (some body) ∨ q = Ast.existsF vars (some body))
    (hcan : canonicalEnv var_types env)
    (hok : formula_to_z3 q env var_types = .ok (e, env')) :
    (∀ n ∈ vars, envFind env' n = some (mkVar var_types n)) ∧
    (∀ n v, envFind env n = some v → envFind env' n = some v) := by
  have main : ∀ n ∈ vars, envFind env' n = some (mkVar var_types n) := by
    rcases hq with hq | hq <;> subst hq <;>
      (rcases hvars : vars with - | ⟨v0, vrest⟩
       · intro n hn
         simp [hvars] at hn
       · rw [hvars] at hok
         simp [formula_to_z3, except_bind_ok] at hok
         rcases hok with ⟨a, hbody, -⟩
         intro n hn
         have hfold := @fold_mem var_types (v0 :: vrest)
           env n (Or.inl (by simpa [hvars] using hn))
         have hcf := (canonical_fold (v0 :: vrest) env hcan).1
         exact (formula_to_z3_good _ _ _ _ _ hbody hcf).2 n _ hfold)
  have ext : ∀ n v, envFind env n = some v → envFind env' n = some v :=
    (formula_to_z3_good _ _ _ _ _ hok hcan).2
  exact ⟨main, ext⟩

/-- C4, witness for the amended theorem. -/
theorem C4_quantifier_env_witness :
    (∀ n ∈ ["y"], envFind [("x", Z3Expr.realConst "x"), ("y", Z3Expr.realConst "y")] n =
        some (mkVar [] n)) ∧
    (∀ n v, envFind [("x", Z3Expr.realConst "x")] n = some v →
        envFind [("x", Z3Expr.realConst "x"), ("y", Z3Expr.realConst "y")] n = some v) := by
  have h := C4_quantifier_env ["y"]
    (.rel (some ">") (some (.var (some "y"))) (some (.num (some "0"))))
    (Ast.existsF ["y"]
      (some (.rel (some ">") (some (.var (some "y"))) (some (.num (some "0"))))))
    [("x", Z3Expr.realConst "x")]
    [("x", Z3Expr.realConst "x"), ("y", Z3Expr.realConst "y")] []
    (Z3Expr.existsE [Z3Expr.realConst "y"]
      (Z3Expr.gtE (Z3Expr.realConst "y") (Z3Expr.realVal "0")))
    (Or.inr rfl)
    (by intro p hp; simp at hp; simp [hp, mkVar, vtGet])
    (by rfl)
  exact h

/-- C1.  The driver decides the final claim by checking the live
assumption list (original assumptions plus proven steps) conjoined with
the negated claim: `unsat` gives the record `proven` / `ok=true` with no
`model`; `sat` gives `disproven` / `ok=false` with a model that contains
every declared variable; `unknown` gives status `unknown`. -/
theorem C1_final_claim_verdict
    (oracle : Z3Oracle) (assumptions : List Ast) (claim : Ast)
    (declared_vars : List String) (var_types : VarTypes) (steps : List Step)
    (step_results : List StepResult) (live : List Ast)
    (azs : List Z3Expr) (env1 env2 : Env) (claim_z3 : Z3Expr)
    (h1 : run_steps oracle var_types (initEnv declared_vars var_types) steps
        assumptions 0 [] = .ok (step_results, live))
    (h2 : add_all_shared live (initEnv declared_vars var_types) var_types =
        .ok (azs, env1))
    (h3 : formula_to_z3 claim env1 var_types = .ok (claim_z3, env2)) :
    (oracle.check (azs ++ [Z3Expr.notE claim_z3]) = .unsat →
      prove oracle assumptions claim declared_vars var_types steps =
        { ok := true, status := "proven",
          step_results :=
            if step_results.isEmpty then none else some step_results }) ∧
    (oracle.check (azs ++ [Z3Expr.notE claim_z3]) = .sat →
      prove oracle assumptions claim declared_vars var_types steps =
        { ok := false, status := "disproven",
          model := some (env2.map (fun p =>
            (p.1, oracle.modelEval (azs ++ [Z3Expr.notE claim_z3]) p.2))),
          message := some (format_counterexample oracle
            (azs ++ [Z3Expr.notE claim_z3]) env2),
          step_results :=
            if step_results.isEmpty then none else some step_results } ∧
      ∀ x ∈ declared_vars, ∃ v,
        (x, v) ∈ env2.map (fun p =>
          (p.1, oracle.modelEval (azs ++ [Z3Expr.notE claim_z3]) p.2))) ∧
    (oracle.check (azs ++ [Z3Expr.notE claim_z3]) = .unknown →
      prove oracle assumptions claim declared_vars var_types steps =
        { ok := false, status := "unknown",
          message := some "Z3 could not determine satisfiability (timeout or incomplete theory)",
          step_results :=
            if step_results.isEmpty then none else some step_results }) := by
  have hcan0 := initEnv_canonical declared_vars var_types
  obtain ⟨hc1, hx1⟩ := add_all_shared_good _ _ _ _ _ h2 hcan0
  obtain ⟨hc2, hx2⟩ := formula_to_z3_good _ _ _ _ _ h3 hc1
  refine ⟨?_, ?_, ?_⟩ <;> intro hchk
  · simp [prove, prove_core, h1, h2, h3, hchk, Bind.bind, Except.bind]
  · constructor
    · simp [prove, prove_core, h1, h2, h3, hchk, Bind.bind, Except.bind]
    · intro x hx
      have hfind : envFind env2 x = some (mkVar var_types x) :=
        hx2 _ _ (hx1 _ _ (initEnv_mem declared_vars var_types x hx))
      refine ⟨oracle.modelEval (azs ++ [Z3Expr.notE claim_z3]) (mkVar var_types x), ?_⟩
      exact List.mem_map.mpr ⟨(x, mkVar var_types x), envFind_mem hfind, rfl⟩
  · simp [prove, prove_core, h1, h2, h3, hchk, Bind.bind, Except.bind]

/-- C1, witness: `assume x > 0`, claim `x > 0`, no steps, with an oracle
that answers `unsat`. -/
theorem C1_final_claim_verdict_witness :
    prove oracleUnsat [astXgt0] astXgt0 ["x"] [] [] =
      { ok := true, status := "proven" } := by
  have h := C1_final_claim_verdict oracleUnsat [astXgt0] astXgt0 ["x"] [] []
    [] [astXgt0]
    [Z3Expr.gtE (Z3Expr.realConst "x") (Z3Expr.realVal "0")]
    [("x", Z3Expr.realConst "x")] [("x", Z3Expr.realConst "x")]
    (Z3Expr.gtE (Z3Expr.realConst "x") (Z3Expr.realVal "0"))
    (by rfl) (by rfl) (by rfl)
  simpa using h.1 (by rfl)

/-- `var_types` dict write followed by lookup of the written key. -/
theorem vtGet_vtSet (vt : VarTypes) (n : String) (v : String) :
    vtGet (vtSet vt n v) n = some v := by
  induction vt with
  | nil => simp [vtSet, vtGet]
  | cons p rest ih =>
      obtain ⟨k, w⟩ := p
      by_cases hk : k = n
      · subst hk
        simp [vtSet, vtGet]
      · simp [vtSet, vtGet, hk, ih]

set_option maxHeartbeats 8000000 in
/-- C6, counterexample.  The claim says `var_types` records the *first*
explicitly declared type and later statements cannot change it.  Parsing
`let x: Int` followed by a second, unannotated `let x` ends with
`var_types = {x: Real}`: the second `let` overwrote the recorded `Int`. -/
theorem C6_counterexample :
    (parseDsl 100 "let x: Int\nlet x\nprove x = x").map (fun r => r.var_types) =
      .ok [("x", "Real")] ∧ some "Real" ≠ some "Int" := by
  exact ⟨by rfl, by simp⟩

/-- C6, amended.  `var_types` records the type of the *most recent* `let`
declaration of a variable: the `let` handler writes unconditionally
(`self.var_types[name] = var_type`), so a later unannotated `let x`
overwrites a recorded type with the default `Real`.  Statements other
than `let` never write `var_types`. -/
theorem C6_let_overwrites (fuel : Nat) (s : PState) (tLet tName tNl : Tok)
    (rest : List Tok)
    (hLet : tLet.type = "LET") (hName : tName.type = "IDENT")
    (hNl : tNl.type = "NEWLINE")
    (htoks : s.toks = tLet :: tName :: tNl :: rest) :
    parse_statement (fuel + 1) s =
      .ok ((), { s with
        toks := tNl :: rest,
        vars := s.vars ++ [tName.value],
        var_types := vtSet s.var_types tName.value "Real" }) ∧
    vtGet (vtSet s.var_types tName.value "Real") tName.value = some "Real" := by
  constructor
  · simp [parse_statement, cur, adv, expectT, htoks, hLet, hName, hNl,
      Bind.bind, Except.bind]
  · exact vtGet_vtSet _ _ _

/-- C6, witness for the amended theorem. -/
theorem C6_let_overwrites_witness :
    parse_statement 10
      { toks := [{ type := "LET", value := "let", line := 2, col := 2 },
                 { type := "IDENT", value := "x", line := 2, col := 6 },
                 { type := "NEWLINE", value := "\n", line := 2, col := 7 }],
        var_types := [("x", "Int")] } =
      .ok ((), { toks := [{ type := "NEWLINE", value := "\n", line := 2, col := 7 }],
                 vars := ["x"],
                 var_types := [("x", "Real")] }) ∧
    vtGet (vtSet [("x", "Int")] "x" "Real") "x" = some "Real" := by
  have h := C6_let_overwrites 9
    { toks := [{ type := "LET", value := "let", line := 2, col := 2 },
               { type := "IDENT", value := "x", line := 2, col := 6 },
               { type := "NEWLINE", value := "\n", line := 2, col := 7 }],
      var_types := [("x", "Int")] }
    { type := "LET", value := "let", line := 2, col := 2 }
    { type := "IDENT", value := "x", line := 2, col := 6 }
    { type := "NEWLINE", value := "\n", line := 2, col := 7 }
    [] rfl rfl rfl rfl
  simpa [vtSet] using h

set_option maxHeartbeats 8000000 in
/-- C7, counterexample.  The claim says a second top-level `prove` is a
parse error recorded in the error list.  Parsing two `prove` statements
succeeds with no error, and the claim is the second formula: the first
was silently replaced. -/
theorem C7_counterexample :
    (parseDsl 100 "prove x > 0\nprove x < 0").map (fun r => r.claim) =
      .ok (Ast.rel (some "<") (some (.var (some "x")))
        (some (.num (some "0")))) := by
  rfl

/-- C7, amended.  A second top-level `prove` silently replaces the
earlier claim: the `prove` branch of `parse_statement` assigns
`claim = F` unconditionally, succeeds, and records no error. -/
theorem C7_prove_replaces (fuel : Nat) (s s1 : PState) (F : Ast)
    (hProve : (cur s).type = "PROVE")
    (hf : parse_formula fuel (adv s) = .ok (F, s1)) :
    parse_statement (fuel + 1) s = .ok ((), { s1 with claim := some F }) := by
  simp [parse_statement, hProve, hf, Bind.bind, Except.bind]

set_option maxHeartbeats 8000000 in
/-- C7, witness for the amended theorem: the state already carries a
claim, and it is replaced. -/
theorem C7_prove_replaces_witness :
    parse_statement 20
      { toks := [{ type := "PROVE", value := "prove", line := 2, col := 2 },
                 { type := "NUMBER", value := "1", line := 2, col := 8 },
                 { type := "EOF", value := "", line := 2, col := 9 }],
        claim := some (Ast.orF []) } =
      .ok ((), { toks := [{ type := "EOF", value := "", line := 2, col := 9 }],
                 claim := some (Ast.num (some "1")) }) := by
  have h := C7_prove_replaces 19
    { toks := [{ type := "PROVE", value := "prove", line := 2, col := 2 },
               { type := "NUMBER", value := "1", line := 2, col := 8 },
               { type := "EOF", value := "", line := 2, col := 9 }],
      claim := some (Ast.orF []) }
    { toks := [{ type := "EOF", value := "", line := 2, col := 9 }],
      claim := some (Ast.orF []) }
    (Ast.num (some "1")) rfl (by rfl)
  simpa using h

/-- C8.  A `let x in S` declaration synthesises the membership
constraint at declaration time: `in N` appends `x >= 0`; each of `in
N+`, `in Z+`, `in R+`, `in Q+` appends `x > 0`; plain `in R`, `in Z`,
`in Q` append nothing.  (`tSet.value` ranges over the canonical set
atoms the lexer can produce.) -/
theorem C8_let_set_membership (fuel : Nat) (s s' : PState)
    (tLet tName tIn tSet tPlus tNl : Tok) (rest rest' : List Tok)
    (hLet : tLet.type = "LET") (hName : tName.type = "IDENT")
    (hIn : tIn.type = "IN") (hSet : tSet.type = "SET")
    (hPlus : tPlus.type = "PLUS") (hNl : tNl.type = "NEWLINE")
    (hSetVal : tSet.value ∈ ["R", "Z", "N", "Q"])
    (htoks : s.toks = [tLet, tName, tIn, tSet, tNl] ++ rest)
    (htoks' : s'.toks = [tLet, tName, tIn, tSet, tPlus, tNl] ++ rest') :
    (parse_statement (fuel + 1) s =
      .ok ((), { s with
        toks := tNl :: rest,
        vars := s.vars ++ [tName.value],
        var_types := vtSet s.var_types tName.value
          (if tSet.value = "Z" ∨ tSet.value = "N" then "Int" else "Real"),
        assumptions := s.assumptions ++
          (if tSet.value = "N" then
            [Ast.rel (some ">=") (some (.var (some tName.value)))
              (some (.num (some "0")))]
           else []) })) ∧
    (parse_statement (fuel + 1) s' =
      .ok ((), { s' with
        toks := tNl :: rest',
        vars := s'.vars ++ [tName.value],
        var_types := vtSet s'.var_types tName.value
          (if tSet.value = "Z" ∨ tSet.value = "N" then "Int" else "Real"),
        assumptions := s'.assumptions ++
          [Ast.rel (some ">") (some (.var (some tName.value)))
            (some (.num (some "0")))] })) := by
  simp only [List.mem_cons, List.mem_singleton, List.not_mem_nil, or_false] at hSetVal
  rcases hSetVal with hv | hv | hv | hv <;>
    (constructor <;>
      simp [parse_statement, cur, adv, expectT, htoks, htoks', hLet, hName,
        hIn, hSet, hPlus, hNl, hv, Bind.bind, Except.bind]) <;>
    rfl

/-- C8, witness: `let n in N` followed by a newline. -/
theorem C8_let_set_membership_witness :
    parse_statement 10
      { toks := [{ type := "LET", value := "let", line := 1, col := 1 },
                 { type := "IDENT", value := "n", line := 1, col := 5 },
                 { type := "IN", value := "in", line := 1, col := 7 },
                 { type := "SET", value := "N", line := 1, col := 10 },
                 { type := "NEWLINE", value := "\n", line := 1, col := 11 }] } =
      .ok ((), { toks := [{ type := "NEWLINE", value := "\n", line := 1, col := 11 }],
                 vars := ["n"],
                 var_types := [("n", "Int")],
                 assumptions := [Ast.rel (some ">=") (some (.var (some "n")))
                   (some (.num (some "0")))] }) := by
  have h := (C8_let_set_membership 9
    { toks := [{ type := "LET", value := "let", line := 1, col := 1 },
               { type := "IDENT", value := "n", line := 1, col := 5 },
               { type := "IN", value := "in", line := 1, col := 7 },
               { type := "SET", value := "N", line := 1, col := 10 },
               { type := "NEWLINE", value := "\n", line := 1, col := 11 }] }
    { toks := [{ type := "LET", value := "let", line := 1, col := 1 },
               { type := "IDENT", value := "n", line := 1, col := 5 },
               { type := "IN", value := "in", line := 1, col := 7 },
               { type := "SET", value := "N", line := 1, col := 10 },
               { type := "PLUS", value := "+", line := 1, col := 11 },
               { type := "NEWLINE", value := "\n", line := 1, col := 11 }] }
    { type := "LET", value := "let", line := 1, col := 1 }
    { type := "IDENT", value := "n", line := 1, col := 5 }
    { type := "IN", value := "in", line := 1, col := 7 }
    { type := "SET", value := "N", line := 1, col := 10 }
    { type := "PLUS", value := "+", line := 1, col := 11 }
    { type := "NEWLINE", value := "\n", line := 1, col := 11 }
    [] [] rfl rfl rfl rfl rfl rfl (by simp) rfl rfl).1
  simpa [vtSet] using h

set_option maxHeartbeats 4000000 in
/-- C9.  Parsing `a op1 b op2 c` produces the conjunction of the two
pairwise relations, each link keeping its own operator and sharing the
middle term; parsing `a op1 b and b op2 c` produces the identical AST;
and a single comparison is returned as a bare relation node. -/
theorem C9_chained_comparison (s1 s2 s3 : PState) (a b c : String)
    (ia ib ib2 ic t1 t2 tAnd tEof : Tok)
    (hia : ia.type = "IDENT") (hib : ib.type = "IDENT")
    (hib2 : ib2.type = "IDENT") (hic : ic.type = "IDENT")
    (hva : ia.value = a) (hvb : ib.value = b) (hvb2 : ib2.value = b)
    (hvc : ic.value = c)
    (ht1 : t1.type ∈ relTokTypes) (ht2 : t2.type ∈ relTokTypes)
    (hAnd : tAnd.type = "AND") (hEof : tEof.type = "EOF")
    (htoks1 : s1.toks = [ia, t1, ib, t2, ic, tEof])
    (htoks2 : s2.toks = [ia, t1, ib, tAnd, ib2, t2, ic, tEof])
    (htoks3 : s3.toks = [ia, t1, ib, tEof]) :
    (parse_formula 64 s1).map Prod.fst =
      .ok (Ast.andF
        [Ast.rel (some (opMapGet t1.type)) (some (.var (some a)))
          (some (.var (some b))),
         Ast.rel (some (opMapGet t2.type)) (some (.var (some b)))
          (some (.var (some c)))]) ∧
    (parse_formula 64 s2).map Prod.fst =
      .ok (Ast.andF
        [Ast.rel (some (opMapGet t1.type)) (some (.var (some a)))
          (some (.var (some b))),
         Ast.rel (some (opMapGet t2.type)) (some (.var (some b)))
          (some (.var (some c)))]) ∧
    (parse_formula 64 s3).map Prod.fst =
      .ok (Ast.rel (some (opMapGet t1.type)) (some (.var (some a)))
        (some (.var (some b)))) := by
  simp [relTokTypes] at ht1 ht2
  rcases ht1 with h1 | h1 | h1 | h1 | h1 | h1 <;>
    rcases ht2 with h2 | h2 | h2 | h2 | h2 | h2 <;>
      refine ⟨?_, ?_, ?_⟩ <;>
        simp [parse_formula, parse_implies, parse_or, parse_or_loop, parse_and,
          parse_and_loop, parse_not, parse_quantifier, parse_relation,
          parse_rel_loop, parse_expr, parse_expr_loop, parse_term,
          parse_term_loop, parse_power, parse_unary, parse_atom, cur, adv,
          expectT, htoks1, htoks2, htoks3, hia, hib, hib2, hic, hva, hvb,
          hvb2, hvc, h1, h2, hAnd, hEof, opMapGet, relTokTypes, Bind.bind,
          Except.bind, Except.map]

/-- C9, witness: `a < b <= c`, `a < b and b <= c`, and bare `a < b`. -/
theorem C9_chained_comparison_witness :
    (parse_formula 64 { toks := [
        { type := "IDENT", value := "a", line := 1, col := 1 },
        { type := "LT", value := "<", line := 1, col := 3 },
        { type := "IDENT", value := "b", line := 1, col := 5 },
        { type := "LE", value := "<=", line := 1, col := 7 },
        { type := "IDENT", value := "c", line := 1, col := 10 },
        { type := "EOF", value := "", line := 1, col := 11 }] }).map Prod.fst =
      .ok (Ast.andF
        [Ast.rel (some (opMapGet "LT")) (some (.var (some "a")))
          (some (.var (some "b"))),
         Ast.rel (some (opMapGet "LE")) (some (.var (some "b")))
          (some (.var (some "c")))]) ∧
    (parse_formula 64 { toks := [
        { type := "IDENT", value := "a", line := 1, col := 1 },
        { type := "LT", value := "<", line := 1, col := 3 },
        { type := "IDENT", value := "b", line := 1, col := 5 },
        { type := "AND", value := "and", line := 1, col := 7 },
        { type := "IDENT", value := "b", line := 1, col := 11 },
        { type := "LE", value := "<=", line := 1, col := 7 },
        { type := "IDENT", value := "c", line := 1, col := 10 },
        { type := "EOF", value := "", line := 1, col := 11 }] }).map Prod.fst =
      .ok (Ast.andF
        [Ast.rel (some (opMapGet "LT")) (some (.var (some "a")))
          (some (.var (some "b"))),
         Ast.rel (some (opMapGet "LE")) (some (.var (some "b")))
          (some (.var (some "c")))]) ∧
    (parse_formula 64 { toks := [
        { type := "IDENT", value := "a", line := 1, col := 1 },
        { type := "LT", value := "<", line := 1, col := 3 },
        { type := "IDENT", value := "b", line := 1, col := 5 },
        { type := "EOF", value := "", line := 1, col := 11 }] }).map Prod.fst =
      .ok (Ast.rel (some (opMapGet "LT")) (some (.var (some "a")))
        (some (.var (some "b")))) := by
  exact C9_chained_comparison _ _ _ "a" "b" "c"
    { type := "IDENT", value := "a", line := 1, col := 1 }
    { type := "IDENT", value := "b", line := 1, col := 5 }
    { type := "IDENT", value := "b", line := 1, col := 11 }
    { type := "IDENT", value := "c", line := 1, col := 10 }
    { type := "LT", value := "<", line := 1, col := 3 }
    { type := "LE", value := "<=", line := 1, col := 7 }
    { type := "AND", value := "and", line := 1, col := 7 }
    { type := "EOF", value := "", line := 1, col := 11 }
    rfl rfl rfl rfl rfl rfl rfl rfl (by simp [relTokTypes])
    (by simp [relTokTypes]) rfl rfl rfl rfl rfl

/-- C3.  For a single-formula intermediate step `F`, the driver issues
the query `liveAssumptions ∧ ¬F`.  On `unsat` the step is recorded as
proven and `F` is appended to the live assumption list the remaining
loop runs with; on `sat` the step is recorded as disproven with a
counterexample model and the live list is unchanged; on `unknown` the
step is recorded as unknown and the live list is unchanged. -/
theorem C3_single_formula_step (oracle : Z3Oracle) (var_types : VarTypes)
    (env : Env) (F : Ast) (rest : List Step) (current : List Ast) (i : Nat)
    (acc : List StepResult) (azs : List Z3Expr) (fz : Z3Expr)
    (ha : add_all_copy current env var_types = .ok azs)
    (hf : f2z_copy F env var_types = .ok fz) :
    (oracle.check (azs ++ [Z3Expr.notE fz]) = .unsat →
      run_steps oracle var_types env
          ({ formula := some F } :: rest) current i acc =
        run_steps oracle var_types env rest (current ++ [F]) (i + 1)
          (acc ++ [{ step := i + 1, ok := true, status := some "proven" }])) ∧
    (oracle.check (azs ++ [Z3Expr.notE fz]) = .sat →
      run_steps oracle var_types env
          ({ formula := some F } :: rest) current i acc =
        run_steps oracle var_types env rest current (i + 1)
          (acc ++ [{ step := i + 1, ok := false, status := some "disproven",
                     model := some (env.map (fun p =>
                       (p.1, oracle.modelEval (azs ++ [Z3Expr.notE fz]) p.2))) }])) ∧
    (oracle.check (azs ++ [Z3Expr.notE fz]) = .unknown →
      run_steps oracle var_types env
          ({ formula := some F } :: rest) current i acc =
        run_steps oracle var_types env rest current (i + 1)
          (acc ++ [{ step := i + 1, ok := false, status := some "unknown" }])) := by
  refine ⟨?_, ?_, ?_⟩ <;> intro hchk <;>
    simp [run_steps, ha, hf, hchk, Bind.bind, Except.bind]

/-- C3, witness: one step `x > 0` under a sat-answering oracle records a
disproven step with a model and leaves the live list (hence the final
query) unchanged. -/
theorem C3_single_formula_step_witness :
    run_steps oracleSat [] [("x", Z3Expr.realConst "x")]
        [{ formula := some astXgt0 }] [] 0 [] =
      .ok ([{ step := 1, ok := false, status := some "disproven",
              model := some [("x", "1/2")] }], []) := by
  have h := C3_single_formula_step oracleSat [] [("x", Z3Expr.realConst "x")]
    astXgt0 [] [] 0 [] []
    (Z3Expr.gtE (Z3Expr.realConst "x") (Z3Expr.realVal "0"))
    (by rfl) (by rfl)
  rw [h.2.1 (by rfl)]
  rfl

/-- C5, counterexample.  The claim says a step with a malformed formula
node is reported per step and the final claim is still checked.  With a
single step whose formula has the unknown kind `bogus`, `prove` instead
returns the whole-unit error record: status `error`, no `step_results`,
and no verdict for the claim. -/
theorem C5_counterexample :
    prove oracleUnsat [] astXgt0 ["x"] []
        [{ formula := some (Ast.unknownType "bogus") }] =
      { ok := false, status := "error",
        error := some "Unknown formula type: bogus" } := by
  rfl

/-- C5, amended.  Only a step that lacks a formula entirely is reported
per step (`Step missing formula`) with the driver continuing to the
remaining steps and the final claim.  A step whose formula is a
malformed AST node raises a translation error that aborts the step loop,
and `prove` then returns the whole-unit record with status `error` and
the exception message — with no per-step report and no claim verdict. -/
theorem C5_step_errors (oracle : Z3Oracle) (var_types : VarTypes) (env : Env)
    (rest : List Step) (current : List Ast) (i : Nat) (acc : List StepResult)
    (F : Ast) (azs : List Z3Expr) (e : ProofErr)
    (assumptions : List Ast) (claim : Ast) (declared_vars : List String)
    (steps : List Step)
    (ha : add_all_copy current env var_types = .ok azs)
    (hf : f2z_copy F env var_types = .error e)
    (hsteps : run_steps oracle var_types (initEnv declared_vars var_types)
        steps assumptions 0 [] = .error e) :
    (run_steps oracle var_types env
        ({ formula := none } :: rest) current i acc =
      run_steps oracle var_types env rest current (i + 1)
        (acc ++ [{ step := i + 1, ok := false,
                   error := some "Step missing formula" }])) ∧
    (run_steps oracle var_types env
        ({ formula := some F } :: rest) current i acc = .error e) ∧
    (prove oracle assumptions claim declared_vars var_types steps =
      { ok := false, status := "error", error := some e.msg }) := by
  refine ⟨?_, ?_, ?_⟩
  · simp [run_steps]
  · simp [run_steps, ha, hf, Bind.bind, Except.bind]
  · simp [prove, prove_core, hsteps, Bind.bind, Except.bind]

/-- C5, witness for the amended theorem. -/
theorem C5_step_errors_witness :
    (run_steps oracleUnsat [] [("x", Z3Expr.realConst "x")]
        [{ formula := none }] [] 0 [] =
      run_steps oracleUnsat [] [("x", Z3Expr.realConst "x")] [] [] 1
        [{ step := 1, ok := false, error := some "Step missing formula" }]) ∧
    (run_steps oracleUnsat [] [("x", Z3Expr.realConst "x")]
        [{ formula := some (Ast.unknownType "bogus") }] [] 0 [] =
      .error (.formulaError "Unknown formula type: bogus")) ∧
    (prove oracleUnsat [] astXgt0 ["x"] []
        [{ formula := some (Ast.unknownType "bogus") }] =
      { ok := false, status := "error",
        error := some (ProofErr.formulaError "Unknown formula type: bogus").msg }) := by
  exact C5_step_errors oracleUnsat [] [("x", Z3Expr.realConst "x")] [] [] 0 []
    (Ast.unknownType "bogus") [] (.formulaError "Unknown formula type: bogus")
    [] astXgt0 ["x"] [{ formula := some (Ast.unknownType "bogus") }]
    (by rfl) (by rfl) (by rfl)

/-- The solver answers for the unit `assume x != 0; cases: case x > 0:
have x*x > 0; prove x*x > 0`, as real Z3 decides them over the reals:
the exhaustiveness query `x ≠ 0 ∧ ¬(x > 0)` is satisfiable (for example
`x = -1`), while the inner case step query `x ≠ 0 ∧ x > 0 ∧ ¬(x·x > 0)`
and the final claim query `x ≠ 0 ∧ ¬(x·x > 0)` are both unsatisfiable. -/
def oracleC2 : Z3Oracle :=
  { check := fun q =>
      match q with
      | [Z3Expr.neE (Z3Expr.realConst "x") (Z3Expr.realVal "0"),
         Z3Expr.notE (Z3Expr.orE
           [Z3Expr.gtE (Z3Expr.realConst "x") (Z3Expr.realVal "0")])] => .sat
      | _ => .unsat,
    modelEval := fun _ _ => "-1" }

/-- C2, evaluation at the failing input.  The cases block with the single
case `x > 0` is correctly flagged non-exhaustive in `step_results`, but
the overall verdict is `ok = true`: the driver computes `all_cases_ok`
and never reads it, and the final `ok` comes only from the final claim
query, which is unsatisfiable here.  The claimed overall `ok = false`
does not happen. -/
theorem C2_nonexhaustive_cases_overall_ok :
    prove oracleC2 [astXne0] astXXgt0 ["x"] []
        [{ type := some "cases",
           cases := [{ condition := astXgt0,
                       steps := [{ formula := some astXXgt0 }] }] }] =
      { ok := true, status := "proven",
        step_results := some [{ step := 1, type := some "cases", ok := false,
                                status := some "non-exhaustive",
                                message := some "Cases may not cover all possibilities" }] } := by
  rfl

/-- C10.  `prove` is total at its boundary: for every input it returns a
record whose `status` is one of the four statuses, with `ok = true`
exactly on `proven`; every translation exception is caught and turned
into the `error` record (in the embedding, every exception the body can
raise is a `TermError` or `FormulaError` carried by the `Except`
monad). -/
theorem C10_prove_total (oracle : Z3Oracle) (assumptions : List Ast)
    (claim : Ast) (declared_vars : List String) (var_types : VarTypes)
    (steps : List Step) :
    ((prove oracle assumptions claim declared_vars var_types steps).status = "proven" ∨
     (prove oracle assumptions claim declared_vars var_types steps).status = "disproven" ∨
     (prove oracle assumptions claim declared_vars var_types steps).status = "unknown" ∨
     (prove oracle assumptions claim declared_vars var_types steps).status = "error") ∧
    ((prove oracle assumptions claim declared_vars var_types steps).ok = true ↔
     (prove oracle assumptions claim declared_vars var_types steps).status = "proven") := by
  rcases hpc : prove_core oracle assumptions claim declared_vars var_types steps
    with e | r
  · simp [prove, hpc]
  · have hr : (r.status = "proven" ∧ r.ok = true) ∨
        (r.status = "disproven" ∧ r.ok = false) ∨
        (r.status = "unknown" ∧ r.ok = false) := by
      rcases hrs : run_steps oracle var_types (initEnv declared_vars var_types)
          steps assumptions 0 [] with e1 | ⟨sr, ca⟩
      · simp [prove_core, hrs, Bind.bind, Except.bind] at hpc
      · rcases has : add_all_shared ca (initEnv declared_vars var_types)
            var_types with e2 | ⟨azs, env1⟩
        · simp [prove_core, hrs, has, Bind.bind, Except.bind] at hpc
        · rcases hcz : formula_to_z3 claim env1 var_types with e3 | ⟨cz, env2⟩
          · simp [prove_core, hrs, has, hcz, Bind.bind, Except.bind] at hpc
          · rcases hk : oracle.check (azs ++ [Z3Expr.notE cz]) <;>
              simp [prove_core, hrs, has, hcz, hk, Bind.bind,
                Except.bind] at hpc <;>
              (subst hpc; simp)
    rcases hr with ⟨h1, h2⟩ | ⟨h1, h2⟩ | ⟨h1, h2⟩ <;> simp [prove, hpc, h1, h2]
